import Mathlib

/-!
Shallow embedding of the `node-daraja` Safaricom Daraja client
(`src/index.js`): the credential store and constructor, the single-slot
token cache (`_getAuthToken`), the authenticated dispatcher
(`_makeRequest`), the error normalizer (`_handleError`) and the
endpoint builders that carry per-operation credential guards.

JavaScript response bodies are modelled by an inductive `Json` value;
JavaScript truthiness, property access (which throws a TypeError on a
`null` base), `String(...)` conversion, `JSON.stringify` and
`String.prototype.includes` are modelled explicitly, so the normalizer
is a function into `Except Unit String` whose `error` case is exactly a
thrown TypeError escaping `_handleError`.

Network traffic is abstracted by oracles: a token-fetch oracle mapping
the Authorization header the code sends to the axios outcome, and a
POST oracle mapping (url, body, bearer token) to the axios outcome.
Each operation returns its result together with the successor cache
state and the number of token-endpoint and target-endpoint calls made.
-/

/-- A JSON value as delivered by axios in `error.response.data`. -/
inductive Json where
  | null : Json
  | str : String → Json
  | num : Int → Json
  | bool : Bool → Json
  | obj : List (String × Json) → Json
  | arr : List Json → Json
deriving Repr

/-- JavaScript truthiness of a value (`none` models `undefined`). -/
def jsTruthy : Option Json → Bool
  | none => false
  | some Json.null => false
  | some (Json.str s) => !(s == "")
  | some (Json.num n) => !(n == 0)
  | some (Json.bool b) => b
  | some (Json.obj _) => true
  | some (Json.arr _) => true

/-- JavaScript `a || b`: `a` when truthy, else `b`. -/
def jsOr (a b : Option Json) : Option Json :=
  if jsTruthy a then a else b

/-- JavaScript `v || d` where the fallback `d` is a known value. -/
def jsOrDefault (v : Option Json) (d : Json) : Json :=
  if jsTruthy v then v.getD d else d

/-- First field of the association list with the given key (object fields
are unique after JSON parsing, so first-match lookup is object lookup). -/
def lookupField : List (String × Json) → String → Option Json
  | [], _ => none
  | (k', v) :: rest, k => if k' == k then some v else lookupField rest k

/-- JavaScript property access `base[k]`: throws a TypeError when the base
is `null`; yields `undefined` on non-object bases without such a field. -/
def getProp : Json → String → Except Unit (Option Json)
  | Json.null, _ => Except.error ()
  | Json.obj fs, k => Except.ok (lookupField fs k)
  | _, _ => Except.ok none

/-- Property access on a possibly-`undefined` base (`undefined` throws). -/
def getPropOV : Option Json → String → Except Unit (Option Json)
  | none, _ => Except.error ()
  | some j, k => getProp j k

mutual

/-- JavaScript `String(v)` for a defined value. -/
def jsToStringJ : Json → String
  | Json.null => "null"
  | Json.str s => s
  | Json.num n => toString n
  | Json.bool b => if b then "true" else "false"
  | Json.obj _ => "[object Object]"
  | Json.arr xs => jsArrJoin xs

/-- `Array.prototype.toString`: elements joined by commas, `null` and
`undefined` elements rendered empty. -/
def jsArrJoin : List Json → String
  | [] => ""
  | [Json.null] => ""
  | [j] => jsToStringJ j
  | Json.null :: y :: rest => "," ++ jsArrJoin (y :: rest)
  | x :: y :: rest => jsToStringJ x ++ "," ++ jsArrJoin (y :: rest)

end

/-- JavaScript `String(v)`, with `undefined` rendered as `"undefined"`. -/
def jsToString : Option Json → String
  | none => "undefined"
  | some j => jsToStringJ j

/-- Lower-case hexadecimal digit. -/
def hexDigit (n : Nat) : Char :=
  "0123456789abcdef".data.getD n '0'

/-- One character of a JSON-stringified string literal. -/
def escJsonChar (c : Char) : String :=
  if c = '"' then "\\\""
  else if c = '\\' then "\\\\"
  else if c = '\x08' then "\\b"
  else if c = '\x09' then "\\t"
  else if c = '\x0a' then "\\n"
  else if c = '\x0c' then "\\f"
  else if c = '\x0d' then "\\r"
  else if c.toNat < 32 then "\\u00" ++ String.mk [hexDigit (c.toNat / 16), hexDigit (c.toNat % 16)]
  else String.singleton c

/-- A JSON string literal with its quotes and escapes. -/
def quoteJson (s : String) : String :=
  "\"" ++ String.join (s.data.map escJsonChar) ++ "\""

mutual

/-- `JSON.stringify` of a defined JSON value. -/
def jsonStringify : Json → String
  | Json.null => "null"
  | Json.str s => quoteJson s
  | Json.num n => toString n
  | Json.bool b => if b then "true" else "false"
  | Json.obj fs => "\x7b" ++ stringifyFields fs ++ "\x7d"
  | Json.arr xs => "[" ++ stringifyElems xs ++ "]"

/-- Comma-separated `"key":value` renderings of an object's fields. -/
def stringifyFields : List (String × Json) → String
  | [] => ""
  | [(k, v)] => quoteJson k ++ ":" ++ jsonStringify v
  | (k, v) :: rest => quoteJson k ++ ":" ++ jsonStringify v ++ "," ++ stringifyFields rest

/-- Comma-separated renderings of an array's elements. -/
def stringifyElems : List Json → String
  | [] => ""
  | [j] => jsonStringify j
  | j :: rest => jsonStringify j ++ "," ++ stringifyElems rest

end

/-- Whether the pattern is an initial segment of the character list. -/
def charsStartWith : List Char → List Char → Bool
  | _, [] => true
  | [], _ :: _ => false
  | c :: cs, p :: ps => c == p && charsStartWith cs ps

/-- Whether the pattern occurs as a contiguous run of the character list. -/
def charsContain : List Char → List Char → Bool
  | [], p => p.isEmpty
  | c :: cs, p => charsStartWith (c :: cs) p || charsContain cs p

/-- `String.prototype.includes` on strings: substring membership. -/
def strIncludes (s pat : String) : Bool :=
  charsContain s.data pat.data

/-- JavaScript `v.includes(pat)`: substring test on strings, membership
test on arrays, a thrown TypeError on every other receiver. -/
def jsIncludes (v : Option Json) (pat : String) : Except Unit Bool :=
  match v with
  | some (Json.str s) => Except.ok (strIncludes s pat)
  | some (Json.arr xs) =>
      Except.ok (xs.any fun j => match j with | Json.str s => s == pat | _ => false)
  | _ => Except.error ()

/-- The base64 alphabet. -/
def base64Chars : List Char :=
  "ABCDEFGHIJKLMNOPQRSTUVWXYZabcdefghijklmnopqrstuvwxyz0123456789+/".data

/-- Character of the base64 alphabet at the given six-bit index. -/
def b64c (n : Nat) : Char :=
  base64Chars.getD n 'A'

/-- UTF-8 encoding of one character, as Node's `Buffer.from` performs it. -/
def charUtf8 (c : Char) : List Nat :=
  let n := c.toNat
  if n < 0x80 then [n]
  else if n < 0x800 then [0xC0 + n / 0x40, 0x80 + n % 0x40]
  else if n < 0x10000 then [0xE0 + n / 0x1000, 0x80 + (n / 0x40) % 0x40, 0x80 + n % 0x40]
  else [0xF0 + n / 0x40000, 0x80 + (n / 0x1000) % 0x40, 0x80 + (n / 0x40) % 0x40, 0x80 + n % 0x40]

/-- UTF-8 bytes of a character list. -/
def utf8Bytes : List Char → List Nat
  | [] => []
  | c :: cs => charUtf8 c ++ utf8Bytes cs

/-- Base64 rendering of a byte list, three bytes to four characters with
trailing padding. -/
def base64Chunks : List Nat → List Char
  | [] => []
  | [a] => [b64c (a / 4), b64c (a % 4 * 16), '=', '=']
  | [a, b] => [b64c (a / 4), b64c (a % 4 * 16 + b / 16), b64c (b % 16 * 4), '=']
  | a :: b :: c :: rest =>
      b64c (a / 4) :: b64c (a % 4 * 16 + b / 16) :: b64c (b % 16 * 4 + c / 64) ::
        b64c (c % 64) :: base64Chunks rest

/-- `Buffer.from(s).toString("base64")`. -/
def base64str (s : String) : String :=
  String.mk (base64Chunks (utf8Bytes s.data))

/-- The fields of a JavaScript `Date` the timestamp helper reads
(`getMonth` is zero-based, as in JavaScript). -/
structure DateParts where
  year : Nat
  month : Nat
  day : Nat
  hours : Nat
  minutes : Nat
  seconds : Nat

/-- `String(x).padStart(2, "0")`. -/
def padStart2 (s : String) : String :=
  if s.length ≥ 2 then s else String.mk (List.replicate (2 - s.length) '0') ++ s

/-- `_getTimestamp`: the local clock formatted as `YYYYMMDDHHMMSS`. -/
def _getTimestamp (d : DateParts) : String :=
  toString d.year ++ padStart2 (toString (d.month + 1)) ++ padStart2 (toString d.day) ++
    padStart2 (toString d.hours) ++ padStart2 (toString d.minutes) ++
    padStart2 (toString d.seconds)

/-- The `error.response` member of an axios failure: HTTP status and the
parsed body. -/
structure AxiosResponse where
  status : Nat
  data : Json

/-- An axios failure object: a server-responded failure carries
`response`; a sent-but-unanswered request carries only a truthy
`request`; a local setup failure carries neither, only `message`. -/
structure AxiosError where
  response : Option AxiosResponse
  request : Bool
  message : String

/-- What a failing operation throws: a normalized `Error` with its
message, or the TypeError that escapes the normalizer itself. -/
inductive Thrown where
  | err : String → Thrown
  | typeErr : Thrown
deriving Repr, DecidableEq

/-- The token endpoint's successful payload `{access_token, expires_in}`. -/
structure TokenResponse where
  access_token : String
  expires_in : Int

/-- The mutable token-cache slot `{this.token, this.tokenExpiresAt}`
(both `null` at construction). -/
structure ClientState where
  token : Option String
  tokenExpiresAt : Option Int
deriving Repr, DecidableEq

/-- The immutable credential fields the constructor copies onto `this`. -/
structure Client where
  consumerKey : String
  consumerSecret : String
  shortCode : String
  passkey : Option String
  initiatorName : Option String
  securityCredential : Option String
  environment : String
  baseUrl : String
deriving Repr, DecidableEq

/-- The constructor's `options` object (`none` models an omitted field). -/
structure SafOptions where
  consumerKey : Option String
  consumerSecret : Option String
  shortCode : Option String
  passkey : Option String
  initiatorName : Option String
  securityCredential : Option String
  environment : Option String

/-- JavaScript truthiness of a possibly-absent string. -/
def jsTruthyOptStr : Option String → Bool
  | none => false
  | some s => !(s == "")

/-- JavaScript truthiness of a possibly-absent number. -/
def jsTruthyOptInt : Option Int → Bool
  | none => false
  | some n => !(n == 0)

/-- The property keys a plain object literal inherits from
`Object.prototype`: reading any of them off `BASE_URLS` yields the
inherited method (or, for `__proto__`, the prototype object), every one
of which is truthy. -/
def objectProtoKeys : List String :=
  ["constructor", "hasOwnProperty", "isPrototypeOf", "propertyIsEnumerable",
   "toLocaleString", "toString", "valueOf", "__defineGetter__", "__defineSetter__",
   "__lookupGetter__", "__lookupSetter__", "__proto__"]

/-- What `BASE_URLS[env]` can evaluate to: one of the object's own
string values, or a truthy non-string value inherited from
`Object.prototype`. -/
inductive BaseUrlVal where
  | url : String → BaseUrlVal
  | protoInherited : BaseUrlVal
deriving Repr, DecidableEq

/-- The `BASE_URLS` lookup `BASE_URLS[env]`: the two own keys map to the
URL strings; a key of `Object.prototype` yields the truthy inherited
member via the prototype chain; every other key is `undefined`. -/
def BASE_URLS (env : String) : Option BaseUrlVal :=
  if env == "sandbox" then some (BaseUrlVal.url "https://sandbox.safaricom.co.ke")
  else if env == "production" then some (BaseUrlVal.url "https://api.safaricom.co.ke")
  else if env ∈ objectProtoKeys then some BaseUrlVal.protoInherited
  else none

/-- The fields of `this` right after the `Safaricom` constructor.
Unlike `Client` (the normal-case client every operation theorem
quantifies over, whose `baseUrl` is a URL string), the constructed
`baseUrl` is whatever `BASE_URLS[environment]` produced, which for an
`Object.prototype` key is a truthy non-string. -/
structure ConstructedClient where
  consumerKey : String
  consumerSecret : String
  shortCode : String
  passkey : Option String
  initiatorName : Option String
  securityCredential : Option String
  environment : String
  baseUrl : BaseUrlVal
deriving Repr, DecidableEq

/-- The `Safaricom` constructor: requires truthy key, secret and
shortcode, defaults a falsy `environment` to `"sandbox"`, and throws
exactly when `BASE_URLS[environment]` is falsy (`!this.baseUrl`), i.e.
when the key is neither an own key nor inherited from
`Object.prototype`. -/
def mkSafaricom (o : SafOptions) : Except Thrown (ConstructedClient × ClientState) :=
  if !jsTruthyOptStr o.consumerKey || !jsTruthyOptStr o.consumerSecret ||
      !jsTruthyOptStr o.shortCode then
    Except.error (Thrown.err "Consumer key, consumer secret, and shortcode are required.")
  else
    let environment := if jsTruthyOptStr o.environment then o.environment.getD "" else "sandbox"
    match BASE_URLS environment with
    | some v =>
        Except.ok
          ({ consumerKey := o.consumerKey.getD "", consumerSecret := o.consumerSecret.getD "",
             shortCode := o.shortCode.getD "", passkey := o.passkey,
             initiatorName := o.initiatorName, securityCredential := o.securityCredential,
             environment := environment, baseUrl := v },
           { token := none, tokenExpiresAt := none })
    | none =>
        Except.error (Thrown.err ("Invalid environment specified: " ++ environment ++
          ". Use 'sandbox' or 'production'."))

/-- The ternary `data.fault ? data.fault.k : null` (the second access
cannot throw: a truthy base is neither `null` nor `undefined`). -/
def faultProp (data : Json) (k : String) : Except Unit (Option Json) :=
  match getProp data "fault" with
  | Except.error u => Except.error u
  | Except.ok fv =>
      if jsTruthy fv then getPropOV fv k else Except.ok (some Json.null)

/-- `data.errorCode || (data.fault ? data.fault.code : null) || data.ResultCode`.
All three probes are evaluated up front: they throw exactly when `data`
is `null`, in which case the first probe already threw, so this agrees
with the short-circuiting source expression. -/
def extractCode (data : Json) : Except Unit (Option Json) :=
  match getProp data "errorCode" with
  | Except.error u => Except.error u
  | Except.ok a =>
      match faultProp data "code" with
      | Except.error u => Except.error u
      | Except.ok b =>
          match getProp data "ResultCode" with
          | Except.error u => Except.error u
          | Except.ok r => Except.ok (jsOr a (jsOr b r))

/-- `data.errorMessage || (data.fault ? data.fault.faultstring : null) ||
data.ResultDesc || JSON.stringify(data)`. -/
def extractMsg (data : Json) : Except Unit (Option Json) :=
  match getProp data "errorMessage" with
  | Except.error u => Except.error u
  | Except.ok a =>
      match faultProp data "faultstring" with
      | Except.error u => Except.error u
      | Except.ok b =>
          match getProp data "ResultDesc" with
          | Except.error u => Except.error u
          | Except.ok r =>
              Except.ok (jsOr a (jsOr b (jsOr r (some (Json.str (jsonStringify data))))))

/-- Case `"400.008.01"` message. -/
def msgAuthenticationFailed (em : String) : String :=
  "Authentication Failed. Please check if your Consumer Key and Consumer Secret are correct. The Daraja API returned: " ++ em

/-- Case `"400.008.02"` message. -/
def msgInvalidGrantType (em : String) : String :=
  "Invalid Grant Type. The library sent 'client_credentials' as required, but the API rejected it. This may be a temporary issue with the API. The Daraja API returned: " ++ em

/-- Case `"404.001.04"` message. -/
def msgInvalidAuthHeader (em : String) : String :=
  "Invalid Authentication Header. This can happen if the access token is missing or incorrect. The Daraja API returned: " ++ em

/-- Case `"400.002.05"` message. -/
def msgInvalidPayload (em : String) : String :=
  "Invalid Request Payload. Please check that all required parameters for this API call are correct and have the right format. The Daraja API returned: " ++ em

/-- Case `"400.003.01"` message. -/
def msgInvalidAccessToken (em : String) : String :=
  "Invalid Access Token. Your token has likely expired. The library will automatically try to get a new one on the next request. The Daraja API returned: " ++ em

/-- Case `"1"` message. -/
def msgInsufficientFunds : String :=
  "Insufficient Funds. The customer's M-Pesa account has insufficient funds to complete the transaction. Please advise the customer to top up or use Fuliza."

/-- Case `"1001"` message. -/
def msgTransactionInProgress : String :=
  "Transaction in Progress. The customer has another M-Pesa transaction in progress. Please advise them to complete or cancel the other transaction before retrying."

/-- Case `"1019"` message. -/
def msgTransactionExpired : String :=
  "Transaction Expired. The request took too long to process and has expired. Please try initiating the transaction again."

/-- Case `"1025"` message. -/
def msgInternalPushError : String :=
  "An internal error occurred while sending the push request. This might be a temporary issue with the M-Pesa service. Please try again shortly."

/-- Case `"1032"` message. -/
def msgRequestCancelled : String :=
  "Request Cancelled by User. The customer cancelled the M-Pesa PIN entry prompt on their phone."

/-- Case `"1037"` message. -/
def msgStkTimeout : String :=
  "STK Push Timeout. The request timed out because the customer's phone was unreachable or they did not respond in time. Please ensure the customer's phone is online and advise them to try again."

/-- First case `"2001"` message (STK section). -/
def msgInvalidPin : String :=
  "Invalid PIN. The customer entered the wrong M-Pesa PIN. Please ask them to try again with the correct PIN."

/-- Case `"15"` message. -/
def msgDuplicateRequest : String :=
  "Duplicate Request. A request with the same unique identifier has already been processed. Please ensure each request has a unique OriginatorConversationID."

/-- Case `"17"` message. -/
def msgInternalFailure : String :=
  "Internal Failure. An unspecified error occurred within the M-Pesa system. Please try again later."

/-- Case `"18"` message. -/
def msgInitiatorCredentialCheck : String :=
  "Initiator Credential Check Failure. The Security Credential provided is incorrect. Please verify and encrypt your initiator password again."

/-- Case `"20"` message. -/
def msgUnresolvedInitiator : String :=
  "Unresolved Initiator. The InitiatorName you provided could not be found. Please check your credentials."

/-- Case `"21"` message. -/
def msgPermissionFailure : String :=
  "Permission Failure. The initiator does not have permission to perform this action on the specified shortcode."

/-- Case `"26"` message. -/
def msgSystemBusy : String :=
  "System Busy. The M-Pesa system is currently experiencing high traffic. Please try your request again in a few moments."

/-- Duplicate case `"2001"` message (B2C sections, twice in the source). -/
def msgInvalidInitiatorInfo : String :=
  "Invalid Initiator Information. The 'initiatorName' or 'securityCredential' you provided is incorrect. Please check your credentials on the Safaricom Developer Portal."

/-- Case `"4102"` message. -/
def msgMerchantKycFail : String :=
  "Merchant KYC Fail. There is an issue with the merchant's account details (KYC). Please ensure the merchant's account is fully compliant."

/-- Case `"4104"` message. -/
def msgMissingNominatedNumber : String :=
  "Missing Nominated Number. The merchant's Till Number is not properly configured with a nominated phone number on the M-Pesa portal."

/-- Cases `"4201"` and `"4203"` message. -/
def msgUssdNetworkError : String :=
  "USSD Network Error. There was a problem with the USSD network when trying to send the prompt to the merchant. This is often temporary. Please try again."

/-- Case `"500.003.1001"`, phrase `"already registered"`. -/
def msgUrlsAlreadyRegistered : String :=
  "URLs are already registered for this ShortCode. In the production environment, you can only register URLs once. To change them, please contact Safaricom API support."

/-- Case `"500.003.1001"`, phrase `"Duplicate notification info"`. -/
def msgDuplicateUrls : String :=
  "Duplicate URLs. You may have registered these URLs on another platform (like the old aggregator platform). Please contact Safaricom support to have the old URLs deleted before registering here."

/-- Case `"500.003.1001"`, no phrase matched. -/
def msgInternalServerErrorAt (em : String) : String :=
  "An internal server error occurred at the API. Please try again later. Details: " ++ em

/-- Case `"409"`, phrase `"Biller already Registered"`. -/
def msgBillerAlreadyOptedIn : String :=
  "This shortcode is already opted into Bill Manager. You do not need to opt-in again."

/-- Case `"409"`, phrase `"Invalid consumerkey/shortcode"`. -/
def msgInvalidCredentials : String :=
  "Invalid credentials. Please ensure the 'consumerKey' and 'shortCode' you are using are correct and linked."

/-- Case `"409"`, phrase `"Another entry exist"`. -/
def msgDuplicateInvoice : String :=
  "Duplicate Invoice. An invoice with this 'externalReference' number already exists. Please use a unique reference for each invoice."

/-- Case `"409"`, phrase `"Incorrect phone number format"`. -/
def msgInvalidPhoneNumber : String :=
  "Invalid Phone Number. Please ensure the 'billedPhoneNumber' is a valid Safaricom number in the format 07XXXXXXXX."

/-- Case `"409"`, phrase `"Incorrect due date format"`. -/
def msgInvalidDateFormat : String :=
  "Invalid Date Format. Please ensure the 'dueDate' is in the format YYYY-MM-DD."

/-- Case `"409"`, phrase `"cannot be cancelled"`. -/
def msgInvoiceCannotBeCancelled : String :=
  "Invoice Cannot Be Cancelled. The invoice has likely been partially or fully paid. Only unpaid invoices can be cancelled."

/-- Case `"409"`, no phrase matched. -/
def msgConflictError (em : String) : String :=
  "A conflict error occurred. The API returned: " ++ em

/-- The `default` case message of the switch. -/
def msgGenericFallback (status : Nat) (em : String) : String :=
  "The API request failed with status code " ++ toString status ++
    ". The API returned the following message: " ++ em

/-- The fixed no-response message (`error.request` branch). -/
def msgNoResponse : String :=
  "The request failed because no response was received from the Safaricom server. This could be due to a network issue or the Daraja API being temporarily unavailable. Please check your internet connection and try again."

/-- The setup-failure message (final `else` branch). -/
def msgSetupFailure (m : String) : String :=
  "An unexpected error occurred while setting up the API request: " ++ m

/-- The `switch (String(errorCode))` of `_handleError`, with the source's
case order kept (including the duplicate `"2001"` labels, which
JavaScript resolves to the first matching case). `msgV` is the extracted
error-message value; interpolating it uses `String(...)` conversion,
while the `"500.003.1001"` and `"409"` cases call `.includes` on it,
which throws on receivers that are neither strings nor arrays. -/
def switchMessage (status : Nat) (cs : String) (msgV : Option Json) : Except Unit String :=
  if cs = "400.008.01" then Except.ok (msgAuthenticationFailed (jsToString msgV))
  else if cs = "400.008.02" then Except.ok (msgInvalidGrantType (jsToString msgV))
  else if cs = "404.001.04" then Except.ok (msgInvalidAuthHeader (jsToString msgV))
  else if cs = "400.002.05" then Except.ok (msgInvalidPayload (jsToString msgV))
  else if cs = "400.003.01" then Except.ok (msgInvalidAccessToken (jsToString msgV))
  else if cs = "1" then Except.ok msgInsufficientFunds
  else if cs = "1001" then Except.ok msgTransactionInProgress
  else if cs = "1019" then Except.ok msgTransactionExpired
  else if cs = "1025" then Except.ok msgInternalPushError
  else if cs = "1032" then Except.ok msgRequestCancelled
  else if cs = "1037" then Except.ok msgStkTimeout
  else if cs = "2001" then Except.ok msgInvalidPin
  else if cs = "15" then Except.ok msgDuplicateRequest
  else if cs = "17" then Except.ok msgInternalFailure
  else if cs = "18" then Except.ok msgInitiatorCredentialCheck
  else if cs = "20" then Except.ok msgUnresolvedInitiator
  else if cs = "21" then Except.ok msgPermissionFailure
  else if cs = "26" then Except.ok msgSystemBusy
  else if cs = "2001" then Except.ok msgInvalidInitiatorInfo
  else if cs = "2001" then Except.ok msgInvalidInitiatorInfo
  else if cs = "4102" then Except.ok msgMerchantKycFail
  else if cs = "4104" then Except.ok msgMissingNominatedNumber
  else if cs = "4201" ∨ cs = "4203" then Except.ok msgUssdNetworkError
  else if cs = "500.003.1001" then
    match jsIncludes msgV "already registered" with
    | Except.error u => Except.error u
    | Except.ok true => Except.ok msgUrlsAlreadyRegistered
    | Except.ok false =>
        match jsIncludes msgV "Duplicate notification info" with
        | Except.error u => Except.error u
        | Except.ok true => Except.ok msgDuplicateUrls
        | Except.ok false => Except.ok (msgInternalServerErrorAt (jsToString msgV))
  else if cs = "409" then
    match jsIncludes msgV "Biller already Registered" with
    | Except.error u => Except.error u
    | Except.ok true => Except.ok msgBillerAlreadyOptedIn
    | Except.ok false =>
        match jsIncludes msgV "Invalid consumerkey/shortcode" with
        | Except.error u => Except.error u
        | Except.ok true => Except.ok msgInvalidCredentials
        | Except.ok false =>
            match jsIncludes msgV "Another entry exist" with
            | Except.error u => Except.error u
            | Except.ok true => Except.ok msgDuplicateInvoice
            | Except.ok false =>
                match jsIncludes msgV "Incorrect phone number format" with
                | Except.error u => Except.error u
                | Except.ok true => Except.ok msgInvalidPhoneNumber
                | Except.ok false =>
                    match jsIncludes msgV "Incorrect due date format" with
                    | Except.error u => Except.error u
                    | Except.ok true => Except.ok msgInvalidDateFormat
                    | Except.ok false =>
                        match jsIncludes msgV "cannot be cancelled" with
                        | Except.error u => Except.error u
                        | Except.ok true => Except.ok msgInvoiceCannotBeCancelled
                        | Except.ok false => Except.ok (msgConflictError (jsToString msgV))
  else Except.ok (msgGenericFallback status (jsToString msgV))

/-- `_handleError`: classifies an axios failure into a user-facing
message. The `error` case is a TypeError thrown inside the normalizer
itself (body `null`, or an `.includes` call on a non-string,
non-array message value). -/
def _handleError (e : AxiosError) : Except Unit String :=
  match e.response with
  | some r =>
      match extractCode r.data with
      | Except.error u => Except.error u
      | Except.ok codeV =>
          match extractMsg r.data with
          | Except.error u => Except.error u
          | Except.ok msgV => switchMessage r.status (jsToString codeV) msgV
  | none =>
      if e.request then Except.ok msgNoResponse
      else Except.ok (msgSetupFailure e.message)

/-- The Basic Authorization header `_getAuthToken` sends to the token
endpoint. -/
def basicAuth (c : Client) : String :=
  "Basic " ++ base64str (c.consumerKey ++ ":" ++ c.consumerSecret)

/-- The cache-hit test `this.token && this.tokenExpiresAt &&
this.tokenExpiresAt > Date.now()`. -/
def tokenValid (st : ClientState) (now : Int) : Bool :=
  jsTruthyOptStr st.token && jsTruthyOptInt st.tokenExpiresAt &&
    decide (st.tokenExpiresAt.getD 0 > now)

/-- `_getAuthToken`: returns the cached token on a hit; otherwise calls
the token-fetch oracle once, caching `{access_token, now +
(expires_in - 60) * 1000}` on success and rethrowing the normalized
failure otherwise. The third component counts token-endpoint calls. -/
def _getAuthToken (c : Client) (st : ClientState) (now : Int)
    (fetch : String → Except AxiosError TokenResponse) :
    Except Thrown String × ClientState × Nat :=
  if tokenValid st now then
    (Except.ok (st.token.getD ""), st, 0)
  else
    match fetch (basicAuth c) with
    | Except.ok r =>
        (Except.ok r.access_token,
         { token := some r.access_token,
           tokenExpiresAt := some (now + (r.expires_in - 60) * 1000) }, 1)
    | Except.error e =>
        match _handleError e with
        | Except.ok m => (Except.error (Thrown.err m), st, 1)
        | Except.error _ => (Except.error Thrown.typeErr, st, 1)

/-- An outgoing request body: field names to JavaScript values
(`none` models a field whose value is `undefined`). -/
abbrev ReqBody := List (String × Option Json)

/-- `_makeRequest`: obtains a token, then POSTs the body to
`baseUrl + endpoint` with the bearer token via the `post` oracle. The
last two components count token-endpoint and target-endpoint calls. -/
def _makeRequest (c : Client) (st : ClientState) (now : Int)
    (fetch : String → Except AxiosError TokenResponse)
    (endpoint : String) (body : ReqBody)
    (post : String → ReqBody → String → Except AxiosError Json) :
    Except Thrown Json × ClientState × Nat × Nat :=
  match _getAuthToken c st now fetch with
  | (Except.error t, st', n) => (Except.error t, st', n, 0)
  | (Except.ok tok, st', n) =>
      match post (c.baseUrl ++ endpoint) body tok with
      | Except.ok d => (Except.ok d, st', n, 1)
      | Except.error e =>
          match _handleError e with
          | Except.ok m => (Except.error (Thrown.err m), st', n, 1)
          | Except.error _ => (Except.error Thrown.typeErr, st', n, 1)

/-- Parameters of `stkPush`. -/
structure StkPushParams where
  Amount : Option Json
  PhoneNumber : Option Json
  CallBackURL : Option Json
  AccountReference : Option Json
  TransactionDesc : Option Json
  TransactionType : Option Json

/-- The guard, endpoint and body `stkPush` builds before dispatching. -/
def stkPushRequest (c : Client) (d : DateParts) (p : StkPushParams) :
    Except Thrown (String × ReqBody) :=
  if !jsTruthyOptStr c.passkey then
    Except.error (Thrown.err "Passkey is required for STK Push.")
  else
    let timestamp := _getTimestamp d
    let password := base64str (c.shortCode ++ c.passkey.getD "" ++ timestamp)
    Except.ok ("/mpesa/stkpush/v1/processrequest",
      [("BusinessShortCode", some (Json.str c.shortCode)),
       ("Password", some (Json.str password)),
       ("Timestamp", some (Json.str timestamp)),
       ("TransactionType", some (jsOrDefault p.TransactionType (Json.str "CustomerPayBillOnline"))),
       ("Amount", p.Amount),
       ("PartyA", p.PhoneNumber),
       ("PartyB", some (Json.str c.shortCode)),
       ("PhoneNumber", p.PhoneNumber),
       ("CallBackURL", p.CallBackURL),
       ("AccountReference", p.AccountReference),
       ("TransactionDesc", p.TransactionDesc)])

/-- `stkPush`: guard, body construction, then authenticated dispatch. -/
def stkPush (c : Client) (st : ClientState) (d : DateParts) (p : StkPushParams) (now : Int)
    (fetch : String → Except AxiosError TokenResponse)
    (post : String → ReqBody → String → Except AxiosError Json) :
    Except Thrown Json × ClientState × Nat × Nat :=
  match stkPushRequest c d p with
  | Except.error t => (Except.error t, st, 0, 0)
  | Except.ok (ep, body) => _makeRequest c st now fetch ep body post

/-- Parameters of `stkQuery`. -/
structure StkQueryParams where
  CheckoutRequestID : Option Json

/-- The guard, endpoint and body `stkQuery` builds before dispatching. -/
def stkQueryRequest (c : Client) (d : DateParts) (p : StkQueryParams) :
    Except Thrown (String × ReqBody) :=
  if !jsTruthyOptStr c.passkey then
    Except.error (Thrown.err "Passkey is required for STK Query.")
  else
    let timestamp := _getTimestamp d
    let password := base64str (c.shortCode ++ c.passkey.getD "" ++ timestamp)
    Except.ok ("/mpesa/stkpushquery/v1/query",
      [("BusinessShortCode", some (Json.str c.shortCode)),
       ("Password", some (Json.str password)),
       ("Timestamp", some (Json.str timestamp)),
       ("CheckoutRequestID", p.CheckoutRequestID)])

/-- `stkQuery`: guard, body construction, then authenticated dispatch. -/
def stkQuery (c : Client) (st : ClientState) (d : DateParts) (p : StkQueryParams) (now : Int)
    (fetch : String → Except AxiosError TokenResponse)
    (post : String → ReqBody → String → Except AxiosError Json) :
    Except Thrown Json × ClientState × Nat × Nat :=
  match stkQueryRequest c d p with
  | Except.error t => (Except.error t, st, 0, 0)
  | Except.ok (ep, body) => _makeRequest c st now fetch ep body post

/-- Parameters of `b2c`. -/
structure B2cParams where
  Amount : Option Json
  PartyB : Option Json
  Remarks : Option Json
  QueueTimeOutURL : Option Json
  ResultURL : Option Json
  CommandID : Option Json
  Occasion : Option Json

/-- The guard, endpoint and body `b2c` builds before dispatching. -/
def b2cRequest (c : Client) (p : B2cParams) : Except Thrown (String × ReqBody) :=
  if !jsTruthyOptStr c.initiatorName || !jsTruthyOptStr c.securityCredential then
    Except.error (Thrown.err "InitiatorName and SecurityCredential are required for B2C transactions.")
  else
    Except.ok ("/mpesa/b2c/v1/paymentrequest",
      [("InitiatorName", some (Json.str (c.initiatorName.getD ""))),
       ("SecurityCredential", some (Json.str (c.securityCredential.getD ""))),
       ("CommandID", some (jsOrDefault p.CommandID (Json.str "BusinessPayment"))),
       ("Amount", p.Amount),
       ("PartyA", some (Json.str c.shortCode)),
       ("PartyB", p.PartyB),
       ("Remarks", p.Remarks),
       ("QueueTimeOutURL", p.QueueTimeOutURL),
       ("ResultURL", p.ResultURL),
       ("Occasion", p.Occasion)])

/-- `b2c`: guard, body construction, then authenticated dispatch. -/
def b2c (c : Client) (st : ClientState) (p : B2cParams) (now : Int)
    (fetch : String → Except AxiosError TokenResponse)
    (post : String → ReqBody → String → Except AxiosError Json) :
    Except Thrown Json × ClientState × Nat × Nat :=
  match b2cRequest c p with
  | Except.error t => (Except.error t, st, 0, 0)
  | Except.ok (ep, body) => _makeRequest c st now fetch ep body post

/-- Parameters of `transactionStatus`. -/
structure TransactionStatusParams where
  TransactionID : Option Json
  ResultURL : Option Json
  QueueTimeOutURL : Option Json
  IdentifierType : Option Json
  Remarks : Option Json
  Occasion : Option Json

/-- The guard, endpoint and body `transactionStatus` builds. -/
def transactionStatusRequest (c : Client) (p : TransactionStatusParams) :
    Except Thrown (String × ReqBody) :=
  if !jsTruthyOptStr c.initiatorName || !jsTruthyOptStr c.securityCredential then
    Except.error (Thrown.err "InitiatorName and SecurityCredential are required for Transaction Status Query.")
  else
    Except.ok ("/mpesa/transactionstatus/v1/query",
      [("Initiator", some (Json.str (c.initiatorName.getD ""))),
       ("SecurityCredential", some (Json.str (c.securityCredential.getD ""))),
       ("CommandID", some (Json.str "TransactionStatusQuery")),
       ("TransactionID", p.TransactionID),
       ("PartyA", some (Json.str c.shortCode)),
       ("IdentifierType", some (jsOrDefault p.IdentifierType (Json.str "4"))),
       ("ResultURL", p.ResultURL),
       ("QueueTimeOutURL", p.QueueTimeOutURL),
       ("Remarks", p.Remarks),
       ("Occasion", p.Occasion)])

/-- `transactionStatus`: guard, body construction, then dispatch. -/
def transactionStatus (c : Client) (st : ClientState) (p : TransactionStatusParams) (now : Int)
    (fetch : String → Except AxiosError TokenResponse)
    (post : String → ReqBody → String → Except AxiosError Json) :
    Except Thrown Json × ClientState × Nat × Nat :=
  match transactionStatusRequest c p with
  | Except.error t => (Except.error t, st, 0, 0)
  | Except.ok (ep, body) => _makeRequest c st now fetch ep body post

/-- Parameters of `accountBalance`. -/
structure AccountBalanceParams where
  ResultURL : Option Json
  QueueTimeOutURL : Option Json
  IdentifierType : Option Json
  Remarks : Option Json

/-- The guard, endpoint and body `accountBalance` builds. -/
def accountBalanceRequest (c : Client) (p : AccountBalanceParams) :
    Except Thrown (String × ReqBody) :=
  if !jsTruthyOptStr c.initiatorName || !jsTruthyOptStr c.securityCredential then
    Except.error (Thrown.err "InitiatorName and SecurityCredential are required for Account Balance Query.")
  else
    Except.ok ("/mpesa/accountbalance/v1/query",
      [("Initiator", some (Json.str (c.initiatorName.getD ""))),
       ("SecurityCredential", some (Json.str (c.securityCredential.getD ""))),
       ("CommandID", some (Json.str "AccountBalance")),
       ("PartyA", some (Json.str c.shortCode)),
       ("IdentifierType", some (jsOrDefault p.IdentifierType (Json.str "4"))),
       ("Remarks", some (jsOrDefault p.Remarks (Json.str "Balance Check"))),
       ("QueueTimeOutURL", p.QueueTimeOutURL),
       ("ResultURL", p.ResultURL)])

/-- `accountBalance`: guard, body construction, then dispatch. -/
def accountBalance (c : Client) (st : ClientState) (p : AccountBalanceParams) (now : Int)
    (fetch : String → Except AxiosError TokenResponse)
    (post : String → ReqBody → String → Except AxiosError Json) :
    Except Thrown Json × ClientState × Nat × Nat :=
  match accountBalanceRequest c p with
  | Except.error t => (Except.error t, st, 0, 0)
  | Except.ok (ep, body) => _makeRequest c st now fetch ep body post

/-- Parameters of `reversal`. -/
structure ReversalParams where
  TransactionID : Option Json
  Amount : Option Json
  ResultURL : Option Json
  QueueTimeOutURL : Option Json
  RecieverIdentifierType : Option Json
  Remarks : Option Json
  Occasion : Option Json

/-- The guard, endpoint and body `reversal` builds. -/
def reversalRequest (c : Client) (p : ReversalParams) : Except Thrown (String × ReqBody) :=
  if !jsTruthyOptStr c.initiatorName || !jsTruthyOptStr c.securityCredential then
    Except.error (Thrown.err "InitiatorName and SecurityCredential are required for Reversals.")
  else
    Except.ok ("/mpesa/reversal/v1/request",
      [("Initiator", some (Json.str (c.initiatorName.getD ""))),
       ("SecurityCredential", some (Json.str (c.securityCredential.getD ""))),
       ("CommandID", some (Json.str "TransactionReversal")),
       ("TransactionID", p.TransactionID),
       ("Amount", p.Amount),
       ("ReceiverParty", some (Json.str c.shortCode)),
       ("RecieverIdentifierType", some (jsOrDefault p.RecieverIdentifierType (Json.str "11"))),
       ("ResultURL", p.ResultURL),
       ("QueueTimeOutURL", p.QueueTimeOutURL),
       ("Remarks", some (jsOrDefault p.Remarks (Json.str "Reversal"))),
       ("Occasion", p.Occasion)])

/-- `reversal`: guard, body construction, then dispatch. -/
def reversal (c : Client) (st : ClientState) (p : ReversalParams) (now : Int)
    (fetch : String → Except AxiosError TokenResponse)
    (post : String → ReqBody → String → Except AxiosError Json) :
    Except Thrown Json × ClientState × Nat × Nat :=
  match reversalRequest c p with
  | Except.error t => (Except.error t, st, 0, 0)
  | Except.ok (ep, body) => _makeRequest c st now fetch ep body post

/-- Parameters of `taxRemittance`. -/
structure TaxRemittanceParams where
  Amount : Option Json
  AccountReference : Option Json
  ResultURL : Option Json
  QueueTimeOutURL : Option Json
  Remarks : Option Json

/-- The guard, endpoint and body `taxRemittance` builds. -/
def taxRemittanceRequest (c : Client) (p : TaxRemittanceParams) :
    Except Thrown (String × ReqBody) :=
  if !jsTruthyOptStr c.initiatorName || !jsTruthyOptStr c.securityCredential then
    Except.error (Thrown.err "InitiatorName and SecurityCredential are required for Tax Remittance.")
  else
    Except.ok ("/mpesa/b2b/v1/remittax",
      [("Initiator", some (Json.str (c.initiatorName.getD ""))),
       ("SecurityCredential", some (Json.str (c.securityCredential.getD ""))),
       ("CommandID", some (Json.str "PayTaxToKRA")),
       ("SenderIdentifierType", some (Json.str "4")),
       ("RecieverIdentifierType", some (Json.str "4")),
       ("Amount", p.Amount),
       ("PartyA", some (Json.str c.shortCode)),
       ("PartyB", some (Json.str "572572")),
       ("AccountReference", p.AccountReference),
       ("Remarks", some (jsOrDefault p.Remarks (Json.str "Tax Payment"))),
       ("QueueTimeOutURL", p.QueueTimeOutURL),
       ("ResultURL", p.ResultURL)])

/-- `taxRemittance`: guard, body construction, then dispatch. -/
def taxRemittance (c : Client) (st : ClientState) (p : TaxRemittanceParams) (now : Int)
    (fetch : String → Except AxiosError TokenResponse)
    (post : String → ReqBody → String → Except AxiosError Json) :
    Except Thrown Json × ClientState × Nat × Nat :=
  match taxRemittanceRequest c p with
  | Except.error t => (Except.error t, st, 0, 0)
  | Except.ok (ep, body) => _makeRequest c st now fetch ep body post

/-- Parameters of `b2b`. -/
structure B2bParams where
  Amount : Option Json
  PartyB : Option Json
  AccountReference : Option Json
  ResultURL : Option Json
  QueueTimeOutURL : Option Json
  CommandID : Option Json
  Requester : Option Json
  Remarks : Option Json

/-- The guard, endpoint and body `b2b` builds. -/
def b2bRequest (c : Client) (p : B2bParams) : Except Thrown (String × ReqBody) :=
  if !jsTruthyOptStr c.initiatorName || !jsTruthyOptStr c.securityCredential then
    Except.error (Thrown.err "InitiatorName and SecurityCredential are required for B2B transactions.")
  else
    Except.ok ("/mpesa/b2b/v1/paymentrequest",
      [("Initiator", some (Json.str (c.initiatorName.getD ""))),
       ("SecurityCredential", some (Json.str (c.securityCredential.getD ""))),
       ("CommandID", some (jsOrDefault p.CommandID (Json.str "BusinessPayBill"))),
       ("SenderIdentifierType", some (Json.str "4")),
       ("RecieverIdentifierType", some (Json.str "4")),
       ("Amount", p.Amount),
       ("PartyA", some (Json.str c.shortCode)),
       ("PartyB", p.PartyB),
       ("AccountReference", p.AccountReference),
       ("Requester", p.Requester),
       ("Remarks", some (jsOrDefault p.Remarks (Json.str "Business Payment"))),
       ("QueueTimeOutURL", p.QueueTimeOutURL),
       ("ResultURL", p.ResultURL)])

/-- `b2b`: guard, body construction, then dispatch. -/
def b2b (c : Client) (st : ClientState) (p : B2bParams) (now : Int)
    (fetch : String → Except AxiosError TokenResponse)
    (post : String → ReqBody → String → Except AxiosError Json) :
    Except Thrown Json × ClientState × Nat × Nat :=
  match b2bRequest c p with
  | Except.error t => (Except.error t, st, 0, 0)
  | Except.ok (ep, body) => _makeRequest c st now fetch ep body post

/-- Parameters of `b2cAccountTopUp`. -/
structure B2cAccountTopUpParams where
  Amount : Option Json
  PartyB : Option Json
  ResultURL : Option Json
  QueueTimeOutURL : Option Json
  Remarks : Option Json

/-- The guard, endpoint and body `b2cAccountTopUp` builds. -/
def b2cAccountTopUpRequest (c : Client) (p : B2cAccountTopUpParams) :
    Except Thrown (String × ReqBody) :=
  if !jsTruthyOptStr c.initiatorName || !jsTruthyOptStr c.securityCredential then
    Except.error (Thrown.err "InitiatorName and SecurityCredential are required for B2C Account Top Up.")
  else
    Except.ok ("/mpesa/b2b/v1/paymentrequest",
      [("Initiator", some (Json.str (c.initiatorName.getD ""))),
       ("SecurityCredential", some (Json.str (c.securityCredential.getD ""))),
       ("CommandID", some (Json.str "BusinessPayToBulk")),
       ("SenderIdentifierType", some (Json.str "4")),
       ("RecieverIdentifierType", some (Json.str "4")),
       ("Amount", p.Amount),
       ("PartyA", some (Json.str c.shortCode)),
       ("PartyB", p.PartyB),
       ("AccountReference", some (Json.str "B2C Top Up")),
       ("Remarks", some (jsOrDefault p.Remarks (Json.str "B2C Top Up"))),
       ("QueueTimeOutURL", p.QueueTimeOutURL),
       ("ResultURL", p.ResultURL)])

/-- `b2cAccountTopUp`: guard, body construction, then dispatch. -/
def b2cAccountTopUp (c : Client) (st : ClientState) (p : B2cAccountTopUpParams) (now : Int)
    (fetch : String → Except AxiosError TokenResponse)
    (post : String → ReqBody → String → Except AxiosError Json) :
    Except Thrown Json × ClientState × Nat × Nat :=
  match b2cAccountTopUpRequest c p with
  | Except.error t => (Except.error t, st, 0, 0)
  | Except.ok (ep, body) => _makeRequest c st now fetch ep body post

/-- The case labels of the `_handleError` switch. -/
def knownCodes : List String :=
  ["400.008.01", "400.008.02", "404.001.04", "400.002.05", "400.003.01",
   "1", "1001", "1019", "1025", "1032", "1037", "2001",
   "15", "17", "18", "20", "21", "26",
   "4102", "4104", "4201", "4203", "500.003.1001", "409"]

theorem getProp_ok (j : Json) (h : j ≠ Json.null) (k : String) :
    ∃ v, getProp j k = Except.ok v := by
  cases j with
  | null => exact absurd rfl h
  | str s => exact ⟨none, rfl⟩
  | num n => exact ⟨none, rfl⟩
  | bool b => exact ⟨none, rfl⟩
  | obj fs => exact ⟨lookupField fs k, rfl⟩
  | arr xs => exact ⟨none, rfl⟩

theorem jsTruthy_some_ne_null (v : Option Json) (h : jsTruthy v = true) :
    ∃ j, v = some j ∧ j ≠ Json.null := by
  cases v with
  | none => simp [jsTruthy] at h
  | some j =>
      refine ⟨j, rfl, ?_⟩
      intro hj
      subst hj
      simp [jsTruthy] at h

theorem faultProp_ok (data : Json) (h : data ≠ Json.null) (k : String) :
    ∃ v, faultProp data k = Except.ok v := by
  obtain ⟨fv, hfv⟩ := getProp_ok data h "fault"
  by_cases ht : jsTruthy fv = true
  · obtain ⟨j, hj, hjn⟩ := jsTruthy_some_ne_null fv ht
    subst hj
    obtain ⟨w, hw⟩ := getProp_ok j hjn k
    refine ⟨w, ?_⟩
    simp [faultProp, hfv, ht, getPropOV, hw]
  · refine ⟨some Json.null, ?_⟩
    simp [faultProp, hfv, ht]

theorem extractCode_ok (data : Json) (h : data ≠ Json.null) :
    ∃ v, extractCode data = Except.ok v := by
  obtain ⟨a, ha⟩ := getProp_ok data h "errorCode"
  obtain ⟨b, hb⟩ := faultProp_ok data h "code"
  obtain ⟨r, hr⟩ := getProp_ok data h "ResultCode"
  refine ⟨jsOr a (jsOr b r), ?_⟩
  simp [extractCode, ha, hb, hr]

theorem extractMsg_ok (data : Json) (h : data ≠ Json.null) :
    ∃ v, extractMsg data = Except.ok v := by
  obtain ⟨a, ha⟩ := getProp_ok data h "errorMessage"
  obtain ⟨b, hb⟩ := faultProp_ok data h "faultstring"
  obtain ⟨r, hr⟩ := getProp_ok data h "ResultDesc"
  refine ⟨jsOr a (jsOr b (jsOr r (some (Json.str (jsonStringify data))))), ?_⟩
  simp [extractMsg, ha, hb, hr]

theorem exists_ok_of_isOk {x : Except Unit String} (h : x.isOk = true) :
    ∃ m, x = Except.ok m := by
  cases x with
  | ok m => exact ⟨m, rfl⟩
  | error u => exact Bool.noConfusion h

theorem isOk_ite {c : Prop} [inst : Decidable c] {a rest : Except Unit String}
    (ha : a.isOk = true) (hr : rest.isOk = true) :
    (if c then a else rest).isOk = true := by
  by_cases h : c
  · rwa [if_pos h]
  · rwa [if_neg h]

theorem switchMessage_ok_of_other (st : Nat) (cs : String) (mv : Option Json)
    (h1 : cs ≠ "500.003.1001") (h2 : cs ≠ "409") :
    ∃ m, switchMessage st cs mv = Except.ok m := by
  apply exists_ok_of_isOk
  unfold switchMessage
  rw [if_neg h1, if_neg h2]
  repeat' apply isOk_ite
  all_goals rfl

theorem switchMessage_ok_str (st : Nat) (cs s : String) :
    ∃ m, switchMessage st cs (some (Json.str s)) = Except.ok m := by
  apply exists_ok_of_isOk
  unfold switchMessage
  simp only [jsIncludes]
  repeat' apply isOk_ite
  all_goals (repeat' split)
  all_goals first
    | rfl
    | simp_all

/-- A concrete sandbox client used to instantiate the general theorems. -/
def cDemo : Client :=
  { consumerKey := "key", consumerSecret := "secret", shortCode := "600988",
    passkey := some "test_passkey", initiatorName := some "testapi",
    securityCredential := some "credential", environment := "sandbox",
    baseUrl := "https://sandbox.safaricom.co.ke" }

/-- A token-fetch oracle that always succeeds with a fixed token. -/
def fetchDemo : String → Except AxiosError TokenResponse :=
  fun _ => Except.ok { access_token := "api_token", expires_in := 3599 }

/-- A POST oracle that always succeeds with a fixed payload. -/
def postDemo : String → ReqBody → String → Except AxiosError Json :=
  fun _ _ _ => Except.ok (Json.obj [("message", Json.str "Success")])

/-- C1: on a cache hit (a truthy cached token, current instant strictly
before the cached expiry) `_getAuthToken` returns the cached token with
no token-endpoint call; on a miss exactly one fetch occurs, and a
successful fetch caches the token with expiry `now + (expires_in - 60)`
seconds; consequently two consecutive dispatcher calls from a cold
cache, the second inside the validity window, make exactly one
token-endpoint call and two target-endpoint calls. -/
theorem C1_token_cache :
    (∀ (c : Client) (st : ClientState) (now : Int) (t : String) (e : Int)
        (fetch : String → Except AxiosError TokenResponse),
        st.token = some t → t ≠ "" → st.tokenExpiresAt = some e → 0 ≤ now → now < e →
        _getAuthToken c st now fetch = (Except.ok t, st, 0)) ∧
    (∀ (c : Client) (st : ClientState) (now : Int)
        (fetch : String → Except AxiosError TokenResponse),
        tokenValid st now = false →
        (_getAuthToken c st now fetch).2.2 = 1 ∧
        ∀ r : TokenResponse, fetch (basicAuth c) = Except.ok r →
          _getAuthToken c st now fetch =
            (Except.ok r.access_token,
             { token := some r.access_token,
               tokenExpiresAt := some (now + (r.expires_in - 60) * 1000) }, 1)) ∧
    (∀ (c : Client) (now1 now2 : Int) (r : TokenResponse) (d1 d2 : Json)
        (fetch : String → Except AxiosError TokenResponse) (ep1 ep2 : String)
        (b1 b2 : ReqBody)
        (post1 post2 : String → ReqBody → String → Except AxiosError Json),
        fetch (basicAuth c) = Except.ok r → r.access_token ≠ "" →
        0 ≤ now2 → now2 < now1 + (r.expires_in - 60) * 1000 →
        post1 (c.baseUrl ++ ep1) b1 r.access_token = Except.ok d1 →
        post2 (c.baseUrl ++ ep2) b2 r.access_token = Except.ok d2 →
        _makeRequest c { token := none, tokenExpiresAt := none } now1 fetch ep1 b1 post1 =
          (Except.ok d1,
           { token := some r.access_token,
             tokenExpiresAt := some (now1 + (r.expires_in - 60) * 1000) }, 1, 1) ∧
        _makeRequest c
            { token := some r.access_token,
              tokenExpiresAt := some (now1 + (r.expires_in - 60) * 1000) }
            now2 fetch ep2 b2 post2 =
          (Except.ok d2,
           { token := some r.access_token,
             tokenExpiresAt := some (now1 + (r.expires_in - 60) * 1000) }, 0, 1)) := by
  refine ⟨?_, ?_, ?_⟩
  · intro c st now t e fetch ht htne he hnow hlt
    have hb : (t == "") = false := by simp [htne]
    have hz : (e == 0) = false := by simp; omega
    have hv : tokenValid st now = true := by
      simp [tokenValid, ht, he, jsTruthyOptStr, jsTruthyOptInt, hb, hz]
      omega
    simp [_getAuthToken, hv, ht]
  · intro c st now fetch hv
    refine ⟨?_, ?_⟩
    · unfold _getAuthToken
      rw [if_neg (by simp [hv])]
      cases hf : fetch (basicAuth c) with
      | ok r => rfl
      | error e =>
          cases hh : _handleError e with
          | ok m => simp [hh]
          | error u => simp [hh]
    · intro r hr
      unfold _getAuthToken
      rw [if_neg (by simp [hv]), hr]
  · intro c now1 now2 r d1 d2 fetch ep1 ep2 b1 b2 post1 post2 hf hne hnow2 hlt hp1 hp2
    have hv1 : tokenValid { token := none, tokenExpiresAt := none } now1 = false := by
      simp [tokenValid, jsTruthyOptStr]
    have e1 : _getAuthToken c { token := none, tokenExpiresAt := none } now1 fetch =
        (Except.ok r.access_token,
         { token := some r.access_token,
           tokenExpiresAt := some (now1 + (r.expires_in - 60) * 1000) }, 1) := by
      unfold _getAuthToken
      rw [if_neg (by simp [hv1]), hf]
    have hbne : (r.access_token == "") = false := by simp [hne]
    have hz2 : (now1 + (r.expires_in - 60) * 1000 == 0) = false := by simp; omega
    have hv2 : tokenValid
        { token := some r.access_token,
          tokenExpiresAt := some (now1 + (r.expires_in - 60) * 1000) } now2 = true := by
      simp [tokenValid, jsTruthyOptStr, jsTruthyOptInt, hbne, hz2]
      omega
    have e2 : _getAuthToken c
        { token := some r.access_token,
          tokenExpiresAt := some (now1 + (r.expires_in - 60) * 1000) } now2 fetch =
        (Except.ok r.access_token,
         { token := some r.access_token,
           tokenExpiresAt := some (now1 + (r.expires_in - 60) * 1000) }, 0) := by
      simp [_getAuthToken, hv2]
    constructor
    · simp only [_makeRequest, e1, hp1]
    · simp only [_makeRequest, e2, hp2]

/-- C1 witness: concrete cache-hit, cold-start and reuse runs. -/
theorem C1_token_cache_witness :
    _getAuthToken cDemo { token := some "tok", tokenExpiresAt := some 5000 } 100 fetchDemo =
      (Except.ok "tok", { token := some "tok", tokenExpiresAt := some 5000 }, 0) ∧
    _makeRequest cDemo { token := none, tokenExpiresAt := none } 1000 fetchDemo "/ep1" [] postDemo =
      (Except.ok (Json.obj [("message", Json.str "Success")]),
       { token := some "api_token", tokenExpiresAt := some (1000 + (3599 - 60) * 1000) }, 1, 1) ∧
    _makeRequest cDemo
        { token := some "api_token", tokenExpiresAt := some (1000 + (3599 - 60) * 1000) }
        2000 fetchDemo "/ep2" [] postDemo =
      (Except.ok (Json.obj [("message", Json.str "Success")]),
       { token := some "api_token", tokenExpiresAt := some (1000 + (3599 - 60) * 1000) }, 0, 1) := by
  refine ⟨?_, ?_, ?_⟩
  · exact C1_token_cache.1 cDemo _ 100 "tok" 5000 fetchDemo rfl (by decide) rfl (by decide)
      (by decide)
  · exact (C1_token_cache.2.2 cDemo 1000 2000 { access_token := "api_token", expires_in := 3599 }
      (Json.obj [("message", Json.str "Success")]) (Json.obj [("message", Json.str "Success")])
      fetchDemo "/ep1" "/ep2" [] [] postDemo postDemo rfl (by decide) (by decide) (by decide)
      rfl rfl).1
  · exact (C1_token_cache.2.2 cDemo 1000 2000 { access_token := "api_token", expires_in := 3599 }
      (Json.obj [("message", Json.str "Success")]) (Json.obj [("message", Json.str "Success")])
      fetchDemo "/ep1" "/ep2" [] [] postDemo postDemo rfl (by decide) (by decide) (by decide)
      rfl rfl).2

/-- A server-responded failure whose parsed body is the JSON value
`null` (the server answered 400 with the literal body `null`). -/
def nullBodyErr400 : AxiosError :=
  { response := some { status := 400, data := Json.null }, request := true,
    message := "Request failed with status code 400" }

/-- A 500 server-responded failure with JSON-`null` body. -/
def nullBodyErr500 : AxiosError :=
  { response := some { status := 500, data := Json.null }, request := false,
    message := "boom" }

/-- A request-sent-but-no-response failure. -/
def noRespErr : AxiosError :=
  { response := none, request := true, message := "x" }

/-- C2 counterexample: a failing token fetch whose response body is JSON
`null` makes the normalizer itself throw, so `_getAuthToken` propagates
a raw TypeError (`Thrown.typeErr`), not a normalized error message. -/
theorem C2_normalized_propagation_cex :
    _handleError nullBodyErr400 = Except.error () ∧
    (_getAuthToken cDemo { token := none, tokenExpiresAt := none } 0
        (fun _ => Except.error nullBodyErr400)).1 = Except.error Thrown.typeErr := by
  exact ⟨rfl, rfl⟩

/-- C2 amended: a failing token fetch always leaves the cached token and
expiry unchanged; the propagated value is the normalized error whenever
the normalizer succeeds, and the normalizer's own TypeError when it
throws (which happens exactly on a JSON-`null` body or an `.includes`
call on a non-string, non-array message value). -/
theorem C2_fetch_failure_preserves_cache :
    ∀ (c : Client) (st : ClientState) (now : Int) (err : AxiosError)
      (fetch : String → Except AxiosError TokenResponse),
      fetch (basicAuth c) = Except.error err →
      (_getAuthToken c st now fetch).2.1 = st ∧
      (tokenValid st now = false →
        (∀ m, _handleError err = Except.ok m →
          (_getAuthToken c st now fetch).1 = Except.error (Thrown.err m)) ∧
        (_handleError err = Except.error () →
          (_getAuthToken c st now fetch).1 = Except.error Thrown.typeErr)) := by
  intro c st now err fetch hf
  by_cases hv : tokenValid st now = true
  · refine ⟨by simp [_getAuthToken, hv], ?_⟩
    intro hvf
    rw [hvf] at hv
    exact absurd hv (by simp)
  · refine ⟨?_, ?_⟩
    · unfold _getAuthToken
      rw [if_neg hv, hf]
      cases hh : _handleError err with
      | ok m => simp [hh]
      | error u => simp [hh]
    · intro _
      refine ⟨?_, ?_⟩
      · intro m hm
        unfold _getAuthToken
        rw [if_neg hv, hf]
        simp [hm]
      · intro hm
        unfold _getAuthToken
        rw [if_neg hv, hf]
        simp [hm]

/-- C2 witness: a concrete no-response fetch failure leaves a concrete
stale cache slot untouched and propagates the normalized message. -/
theorem C2_fetch_failure_preserves_cache_witness :
    (_getAuthToken cDemo { token := some "old", tokenExpiresAt := some 99 } 500
        (fun _ => Except.error noRespErr)).2.1 =
      { token := some "old", tokenExpiresAt := some 99 } ∧
    (_getAuthToken cDemo { token := some "old", tokenExpiresAt := some 99 } 500
        (fun _ => Except.error noRespErr)).1 = Except.error (Thrown.err msgNoResponse) := by
  refine ⟨(C2_fetch_failure_preserves_cache cDemo
    { token := some "old", tokenExpiresAt := some 99 } 500 noRespErr
    (fun _ => Except.error noRespErr) rfl).1, ?_⟩
  exact ((C2_fetch_failure_preserves_cache cDemo
    { token := some "old", tokenExpiresAt := some 99 } 500 noRespErr
    (fun _ => Except.error noRespErr) rfl).2 (by decide)).1 msgNoResponse rfl

/-- C3 counterexample: the normalizer is not total — on a
server-responded failure whose body is JSON `null`, the very first
property probe `data.errorCode` throws a TypeError. -/
theorem C3_normalizer_total_cex :
    _handleError nullBodyErr500 = Except.error () := by
  exact rfl

/-- C3 amended: the normalizer returns a descriptive message for every
no-response and setup failure, and for every server-responded failure
whose body is not JSON `null`, provided that whenever the extracted code
stringifies to `"500.003.1001"` or `"409"` the extracted message value
is a string (otherwise the `.includes` probe throws). -/
theorem C3_normalizer_total_amended :
    ∀ e : AxiosError,
      (∀ r, e.response = some r → r.data ≠ Json.null ∧
        ∀ cv, extractCode r.data = Except.ok cv →
          (jsToString cv = "500.003.1001" ∨ jsToString cv = "409") →
          ∃ s, extractMsg r.data = Except.ok (some (Json.str s))) →
      ∃ m, _handleError e = Except.ok m := by
  intro e h
  cases he : e.response with
  | none =>
      unfold _handleError
      rw [he]
      by_cases hr : e.request = true
      · rw [if_pos hr]
        exact ⟨_, rfl⟩
      · rw [if_neg hr]
        exact ⟨_, rfl⟩
  | some r =>
      obtain ⟨hnull, hstr⟩ := h r he
      obtain ⟨cv, hcv⟩ := extractCode_ok r.data hnull
      obtain ⟨mv, hmv⟩ := extractMsg_ok r.data hnull
      simp only [_handleError, he]
      rw [hcv]
      rw [hmv]
      by_cases hcode : jsToString cv = "500.003.1001" ∨ jsToString cv = "409"
      · obtain ⟨s, hs⟩ := hstr cv hcv hcode
        have hms : mv = some (Json.str s) := Except.ok.inj (hmv.symm.trans hs)
        rw [hms]
        exact switchMessage_ok_str r.status (jsToString cv) s
      · push_neg at hcode
        exact switchMessage_ok_of_other r.status (jsToString cv) mv hcode.1 hcode.2

/-- An unmapped-code server failure used as a concrete witness input. -/
def unmapped404Err : AxiosError :=
  { response := some { status := 404, data := Json.obj [("errorCode", Json.str "999")] },
    request := true, message := "m" }

/-- C3 witness: a concrete unmapped server failure normalizes to some
message. -/
theorem C3_normalizer_total_witness :
    ∃ m, _handleError unmapped404Err = Except.ok m := by
  apply C3_normalizer_total_amended
  intro r hr
  have hr' : r = { status := 404, data := Json.obj [("errorCode", Json.str "999")] } :=
    (Option.some.inj hr).symm
  subst hr'
  refine ⟨fun hh => Json.noConfusion hh, ?_⟩
  intro cv hcv hd
  have hcv' : cv = some (Json.str "999") := (Except.ok.inj hcv).symm
  subst hcv'
  rcases hd with hd | hd <;> exact absurd hd (by decide)

/-- Valid credentials with `environment` set to the empty string. -/
def optsEmptyEnv : SafOptions :=
  { consumerKey := some "key", consumerSecret := some "secret", shortCode := some "600988",
    passkey := none, initiatorName := none, securityCredential := none,
    environment := some "" }

/-- Valid credentials with `environment` set to `"toString"`, a key
`BASE_URLS` inherits from `Object.prototype`. -/
def optsToStringEnv : SafOptions :=
  { consumerKey := some "key", consumerSecret := some "secret", shortCode := some "600988",
    passkey := none, initiatorName := none, securityCredential := none,
    environment := some "toString" }

/-- C4 counterexample: two strings other than `"sandbox"` and
`"production"` on which construction nevertheless succeeds — the empty
string (falsy, so it falls back to the sandbox default) and
`"toString"` (the lookup walks the prototype chain of the `BASE_URLS`
object literal and finds the truthy inherited method, so the
`!this.baseUrl` guard does not fire). -/
theorem C4_environment_cex :
    mkSafaricom optsEmptyEnv =
      Except.ok ({ consumerKey := "key", consumerSecret := "secret", shortCode := "600988",
                   passkey := none, initiatorName := none, securityCredential := none,
                   environment := "sandbox",
                   baseUrl := BaseUrlVal.url "https://sandbox.safaricom.co.ke" },
                 { token := none, tokenExpiresAt := none }) ∧
    ("" : String) ≠ "sandbox" ∧ ("" : String) ≠ "production" ∧
    mkSafaricom optsToStringEnv =
      Except.ok ({ consumerKey := "key", consumerSecret := "secret", shortCode := "600988",
                   passkey := none, initiatorName := none, securityCredential := none,
                   environment := "toString", baseUrl := BaseUrlVal.protoInherited },
                 { token := none, tokenExpiresAt := none }) ∧
    ("toString" : String) ≠ "sandbox" ∧ ("toString" : String) ≠ "production" := by
  exact ⟨rfl, by decide, by decide, rfl, by decide, by decide⟩

/-- C4 amended: with valid credentials, an omitted (or falsy, i.e.
empty-string) `environment` selects the sandbox base URL; an
environment string that is an `Object.prototype` key slips past the
`!this.baseUrl` truthiness guard and construction succeeds with the
inherited non-string value as `baseUrl`; and every nonempty environment
string other than `"sandbox"`, `"production"` and the
`Object.prototype` keys fails construction with the
invalid-environment error. -/
theorem C4_environment_amended :
    ∀ o : SafOptions,
      jsTruthyOptStr o.consumerKey = true → jsTruthyOptStr o.consumerSecret = true →
      jsTruthyOptStr o.shortCode = true →
      ((o.environment = none ∨ o.environment = some "") →
        ∃ cl stt, mkSafaricom o = Except.ok (cl, stt) ∧
          cl.environment = "sandbox" ∧
          cl.baseUrl = BaseUrlVal.url "https://sandbox.safaricom.co.ke") ∧
      (∀ s, o.environment = some s → s ∈ objectProtoKeys →
        ∃ cl stt, mkSafaricom o = Except.ok (cl, stt) ∧
          cl.environment = s ∧ cl.baseUrl = BaseUrlVal.protoInherited) ∧
      (∀ s, o.environment = some s → s ≠ "" → s ≠ "sandbox" → s ≠ "production" →
        s ∉ objectProtoKeys →
        mkSafaricom o = Except.error (Thrown.err
          ("Invalid environment specified: " ++ s ++ ". Use 'sandbox' or 'production'."))) := by
  intro o h1 h2 h3
  refine ⟨?_, ?_, ?_⟩
  · intro henv
    have he : jsTruthyOptStr o.environment = false := by
      rcases henv with h | h <;> simp [h, jsTruthyOptStr]
    have hmk : mkSafaricom o = Except.ok
        ({ consumerKey := o.consumerKey.getD "", consumerSecret := o.consumerSecret.getD "",
           shortCode := o.shortCode.getD "", passkey := o.passkey,
           initiatorName := o.initiatorName, securityCredential := o.securityCredential,
           environment := "sandbox",
           baseUrl := BaseUrlVal.url "https://sandbox.safaricom.co.ke" },
         { token := none, tokenExpiresAt := none }) := by
      simp [mkSafaricom, h1, h2, h3, he, BASE_URLS]
    exact ⟨_, _, hmk, rfl, rfl⟩
  · intro s hs hmem
    have hmem0 := hmem
    simp only [objectProtoKeys, List.mem_cons, List.not_mem_nil, or_false] at hmem
    have hfacts : s ≠ "" ∧ s ≠ "sandbox" ∧ s ≠ "production" := by
      rcases hmem with rfl | rfl | rfl | rfl | rfl | rfl | rfl | rfl | rfl | rfl | rfl | rfl <;>
        exact ⟨by decide, by decide, by decide⟩
    have he : jsTruthyOptStr (some s) = true := by
      simp [jsTruthyOptStr, hfacts.1]
    have hmk : mkSafaricom o = Except.ok
        ({ consumerKey := o.consumerKey.getD "", consumerSecret := o.consumerSecret.getD "",
           shortCode := o.shortCode.getD "", passkey := o.passkey,
           initiatorName := o.initiatorName, securityCredential := o.securityCredential,
           environment := s, baseUrl := BaseUrlVal.protoInherited },
         { token := none, tokenExpiresAt := none }) := by
      simp [mkSafaricom, h1, h2, h3, hs, he, BASE_URLS, hfacts.2.1, hfacts.2.2, hmem0]
    exact ⟨_, _, hmk, rfl, rfl⟩
  · intro s hs hne1 hne2 hne3 hnm
    have he : jsTruthyOptStr (some s) = true := by
      simp [jsTruthyOptStr, hne1]
    simp [mkSafaricom, h1, h2, h3, hs, he, BASE_URLS, hne1, hne2, hne3, hnm]

/-- Valid credentials with `environment` omitted. -/
def optsNoEnv : SafOptions :=
  { consumerKey := some "key", consumerSecret := some "secret", shortCode := some "600988",
    passkey := none, initiatorName := none, securityCredential := none, environment := none }

/-- Valid credentials with an unrecognized `environment`. -/
def optsStagingEnv : SafOptions :=
  { consumerKey := some "key", consumerSecret := some "secret", shortCode := some "600988",
    passkey := none, initiatorName := none, securityCredential := none,
    environment := some "staging" }

/-- C4 witness: the omitted-environment default, the `"toString"`
prototype-key leak, and a concrete rejected environment string. -/
theorem C4_environment_amended_witness :
    (∃ cl stt, mkSafaricom optsNoEnv = Except.ok (cl, stt) ∧
      cl.environment = "sandbox" ∧
      cl.baseUrl = BaseUrlVal.url "https://sandbox.safaricom.co.ke") ∧
    (∃ cl stt, mkSafaricom optsToStringEnv = Except.ok (cl, stt) ∧
      cl.environment = "toString" ∧ cl.baseUrl = BaseUrlVal.protoInherited) ∧
    mkSafaricom optsStagingEnv = Except.error (Thrown.err
      "Invalid environment specified: staging. Use 'sandbox' or 'production'.") := by
  refine ⟨?_, ?_, ?_⟩
  · exact (C4_environment_amended optsNoEnv (by decide) (by decide) (by decide)).1 (Or.inl rfl)
  · exact (C4_environment_amended optsToStringEnv (by decide) (by decide) (by decide)).2.1
      "toString" rfl (by decide)
  · exact (C4_environment_amended optsStagingEnv (by decide) (by decide) (by decide)).2.2
      "staging" rfl (by decide) (by decide) (by decide) (by decide)

/-- C5: each passkey-guarded operation invoked on a client with no
passkey, and each initiator-guarded operation invoked on a client
missing the initiator name or the security credential, fails with its
configuration error, leaves the cache untouched, and makes zero
token-endpoint and zero target-endpoint calls. -/
theorem C5_credential_guards :
    (∀ (c : Client) (st : ClientState) (d : DateParts) (p : StkPushParams) (now : Int)
        (fetch : String → Except AxiosError TokenResponse)
        (post : String → ReqBody → String → Except AxiosError Json),
        c.passkey = none →
        stkPush c st d p now fetch post =
          (Except.error (Thrown.err "Passkey is required for STK Push."), st, 0, 0)) ∧
    (∀ (c : Client) (st : ClientState) (d : DateParts) (p : StkQueryParams) (now : Int)
        (fetch : String → Except AxiosError TokenResponse)
        (post : String → ReqBody → String → Except AxiosError Json),
        c.passkey = none →
        stkQuery c st d p now fetch post =
          (Except.error (Thrown.err "Passkey is required for STK Query."), st, 0, 0)) ∧
    (∀ (c : Client) (st : ClientState) (p : B2cParams) (now : Int)
        (fetch : String → Except AxiosError TokenResponse)
        (post : String → ReqBody → String → Except AxiosError Json),
        c.initiatorName = none ∨ c.securityCredential = none →
        b2c c st p now fetch post =
          (Except.error (Thrown.err
            "InitiatorName and SecurityCredential are required for B2C transactions."),
           st, 0, 0)) ∧
    (∀ (c : Client) (st : ClientState) (p : TransactionStatusParams) (now : Int)
        (fetch : String → Except AxiosError TokenResponse)
        (post : String → ReqBody → String → Except AxiosError Json),
        c.initiatorName = none ∨ c.securityCredential = none →
        transactionStatus c st p now fetch post =
          (Except.error (Thrown.err
            "InitiatorName and SecurityCredential are required for Transaction Status Query."),
           st, 0, 0)) ∧
    (∀ (c : Client) (st : ClientState) (p : AccountBalanceParams) (now : Int)
        (fetch : String → Except AxiosError TokenResponse)
        (post : String → ReqBody → String → Except AxiosError Json),
        c.initiatorName = none ∨ c.securityCredential = none →
        accountBalance c st p now fetch post =
          (Except.error (Thrown.err
            "InitiatorName and SecurityCredential are required for Account Balance Query."),
           st, 0, 0)) ∧
    (∀ (c : Client) (st : ClientState) (p : ReversalParams) (now : Int)
        (fetch : String → Except AxiosError TokenResponse)
        (post : String → ReqBody → String → Except AxiosError Json),
        c.initiatorName = none ∨ c.securityCredential = none →
        reversal c st p now fetch post =
          (Except.error (Thrown.err
            "InitiatorName and SecurityCredential are required for Reversals."),
           st, 0, 0)) ∧
    (∀ (c : Client) (st : ClientState) (p : TaxRemittanceParams) (now : Int)
        (fetch : String → Except AxiosError TokenResponse)
        (post : String → ReqBody → String → Except AxiosError Json),
        c.initiatorName = none ∨ c.securityCredential = none →
        taxRemittance c st p now fetch post =
          (Except.error (Thrown.err
            "InitiatorName and SecurityCredential are required for Tax Remittance."),
           st, 0, 0)) ∧
    (∀ (c : Client) (st : ClientState) (p : B2bParams) (now : Int)
        (fetch : String → Except AxiosError TokenResponse)
        (post : String → ReqBody → String → Except AxiosError Json),
        c.initiatorName = none ∨ c.securityCredential = none →
        b2b c st p now fetch post =
          (Except.error (Thrown.err
            "InitiatorName and SecurityCredential are required for B2B transactions."),
           st, 0, 0)) ∧
    (∀ (c : Client) (st : ClientState) (p : B2cAccountTopUpParams) (now : Int)
        (fetch : String → Except AxiosError TokenResponse)
        (post : String → ReqBody → String → Except AxiosError Json),
        c.initiatorName = none ∨ c.securityCredential = none →
        b2cAccountTopUp c st p now fetch post =
          (Except.error (Thrown.err
            "InitiatorName and SecurityCredential are required for B2C Account Top Up."),
           st, 0, 0)) := by
  refine ⟨?_, ?_, ?_, ?_, ?_, ?_, ?_, ?_, ?_⟩
  · intro c st d p now fetch post h
    simp [stkPush, stkPushRequest, h, jsTruthyOptStr]
  · intro c st d p now fetch post h
    simp [stkQuery, stkQueryRequest, h, jsTruthyOptStr]
  · intro c st p now fetch post h
    rcases h with h | h
    · simp [b2c, b2cRequest, h, jsTruthyOptStr]
    · simp [b2c, b2cRequest, h, jsTruthyOptStr]
  · intro c st p now fetch post h
    rcases h with h | h
    · simp [transactionStatus, transactionStatusRequest, h, jsTruthyOptStr]
    · simp [transactionStatus, transactionStatusRequest, h, jsTruthyOptStr]
  · intro c st p now fetch post h
    rcases h with h | h
    · simp [accountBalance, accountBalanceRequest, h, jsTruthyOptStr]
    · simp [accountBalance, accountBalanceRequest, h, jsTruthyOptStr]
  · intro c st p now fetch post h
    rcases h with h | h
    · simp [reversal, reversalRequest, h, jsTruthyOptStr]
    · simp [reversal, reversalRequest, h, jsTruthyOptStr]
  · intro c st p now fetch post h
    rcases h with h | h
    · simp [taxRemittance, taxRemittanceRequest, h, jsTruthyOptStr]
    · simp [taxRemittance, taxRemittanceRequest, h, jsTruthyOptStr]
  · intro c st p now fetch post h
    rcases h with h | h
    · simp [b2b, b2bRequest, h, jsTruthyOptStr]
    · simp [b2b, b2bRequest, h, jsTruthyOptStr]
  · intro c st p now fetch post h
    rcases h with h | h
    · simp [b2cAccountTopUp, b2cAccountTopUpRequest, h, jsTruthyOptStr]
    · simp [b2cAccountTopUp, b2cAccountTopUpRequest, h, jsTruthyOptStr]

/-- A client with initiator credentials but no passkey. -/
def cNoPasskey : Client :=
  { consumerKey := "key", consumerSecret := "secret", shortCode := "600988",
    passkey := none, initiatorName := some "testapi", securityCredential := some "credential",
    environment := "sandbox", baseUrl := "https://sandbox.safaricom.co.ke" }

/-- A client with a passkey but no initiator credentials. -/
def cNoInitiator : Client :=
  { consumerKey := "key", consumerSecret := "secret", shortCode := "600988",
    passkey := some "test_passkey", initiatorName := none, securityCredential := none,
    environment := "sandbox", baseUrl := "https://sandbox.safaricom.co.ke" }

/-- The demo call instant's clock fields. -/
def dDemo : DateParts := { year := 2023, month := 0, day := 1, hours := 0, minutes := 0,
                           seconds := 0 }

/-- C5 witness: each of the nine guarded operations, on a concrete
client missing its required credential, fails with the configuration
error and zero network calls. -/
theorem C5_credential_guards_witness :
    stkPush cNoPasskey { token := none, tokenExpiresAt := none } dDemo
        ⟨none, none, none, none, none, none⟩ 0 fetchDemo postDemo =
      (Except.error (Thrown.err "Passkey is required for STK Push."),
       { token := none, tokenExpiresAt := none }, 0, 0) ∧
    stkQuery cNoPasskey { token := none, tokenExpiresAt := none } dDemo ⟨none⟩ 0
        fetchDemo postDemo =
      (Except.error (Thrown.err "Passkey is required for STK Query."),
       { token := none, tokenExpiresAt := none }, 0, 0) ∧
    b2c cNoInitiator { token := none, tokenExpiresAt := none }
        ⟨none, none, none, none, none, none, none⟩ 0 fetchDemo postDemo =
      (Except.error (Thrown.err
        "InitiatorName and SecurityCredential are required for B2C transactions."),
       { token := none, tokenExpiresAt := none }, 0, 0) ∧
    transactionStatus cNoInitiator { token := none, tokenExpiresAt := none }
        ⟨none, none, none, none, none, none⟩ 0 fetchDemo postDemo =
      (Except.error (Thrown.err
        "InitiatorName and SecurityCredential are required for Transaction Status Query."),
       { token := none, tokenExpiresAt := none }, 0, 0) ∧
    accountBalance cNoInitiator { token := none, tokenExpiresAt := none }
        ⟨none, none, none, none⟩ 0 fetchDemo postDemo =
      (Except.error (Thrown.err
        "InitiatorName and SecurityCredential are required for Account Balance Query."),
       { token := none, tokenExpiresAt := none }, 0, 0) ∧
    reversal cNoInitiator { token := none, tokenExpiresAt := none }
        ⟨none, none, none, none, none, none, none⟩ 0 fetchDemo postDemo =
      (Except.error (Thrown.err
        "InitiatorName and SecurityCredential are required for Reversals."),
       { token := none, tokenExpiresAt := none }, 0, 0) ∧
    taxRemittance cNoInitiator { token := none, tokenExpiresAt := none }
        ⟨none, none, none, none, none⟩ 0 fetchDemo postDemo =
      (Except.error (Thrown.err
        "InitiatorName and SecurityCredential are required for Tax Remittance."),
       { token := none, tokenExpiresAt := none }, 0, 0) ∧
    b2b cNoInitiator { token := none, tokenExpiresAt := none }
        ⟨none, none, none, none, none, none, none, none⟩ 0 fetchDemo postDemo =
      (Except.error (Thrown.err
        "InitiatorName and SecurityCredential are required for B2B transactions."),
       { token := none, tokenExpiresAt := none }, 0, 0) ∧
    b2cAccountTopUp cNoInitiator { token := none, tokenExpiresAt := none }
        ⟨none, none, none, none, none⟩ 0 fetchDemo postDemo =
      (Except.error (Thrown.err
        "InitiatorName and SecurityCredential are required for B2C Account Top Up."),
       { token := none, tokenExpiresAt := none }, 0, 0) := by
  refine ⟨?_, ?_, ?_, ?_, ?_, ?_, ?_, ?_, ?_⟩
  · exact C5_credential_guards.1 cNoPasskey _ dDemo _ 0 fetchDemo postDemo rfl
  · exact C5_credential_guards.2.1 cNoPasskey _ dDemo _ 0 fetchDemo postDemo rfl
  · exact C5_credential_guards.2.2.1 cNoInitiator _ _ 0 fetchDemo postDemo (Or.inl rfl)
  · exact C5_credential_guards.2.2.2.1 cNoInitiator _ _ 0 fetchDemo postDemo (Or.inl rfl)
  · exact C5_credential_guards.2.2.2.2.1 cNoInitiator _ _ 0 fetchDemo postDemo (Or.inl rfl)
  · exact C5_credential_guards.2.2.2.2.2.1 cNoInitiator _ _ 0 fetchDemo postDemo (Or.inl rfl)
  · exact C5_credential_guards.2.2.2.2.2.2.1 cNoInitiator _ _ 0 fetchDemo postDemo (Or.inl rfl)
  · exact C5_credential_guards.2.2.2.2.2.2.2.1 cNoInitiator _ _ 0 fetchDemo postDemo (Or.inl rfl)
  · exact C5_credential_guards.2.2.2.2.2.2.2.2 cNoInitiator _ _ 0 fetchDemo postDemo (Or.inl rfl)

/-- C6: for both passkey-authenticated operations the outgoing body
carries `Password = base64(shortCode + passkey + timestamp)` and the
timestamp itself, where the timestamp is the local clock formatted
`YYYYMMDDHHMMSS`; in particular the midnight-2023-01-01 clock formats to
`"20230101000000"` and the spec's concrete derivation holds. -/
theorem C6_password_derivation :
    (∀ (c : Client) (d : DateParts) (p : StkPushParams) (pk : String),
        c.passkey = some pk → pk ≠ "" →
        ∃ body, stkPushRequest c d p = Except.ok ("/mpesa/stkpush/v1/processrequest", body) ∧
          body.lookup "Password" =
            some (some (Json.str (base64str (c.shortCode ++ pk ++ _getTimestamp d)))) ∧
          body.lookup "Timestamp" = some (some (Json.str (_getTimestamp d)))) ∧
    (∀ (c : Client) (d : DateParts) (p : StkQueryParams) (pk : String),
        c.passkey = some pk → pk ≠ "" →
        ∃ body, stkQueryRequest c d p = Except.ok ("/mpesa/stkpushquery/v1/query", body) ∧
          body.lookup "Password" =
            some (some (Json.str (base64str (c.shortCode ++ pk ++ _getTimestamp d)))) ∧
          body.lookup "Timestamp" = some (some (Json.str (_getTimestamp d)))) ∧
    _getTimestamp dDemo = "20230101000000" ∧
    base64str ("600988" ++ "test_passkey" ++ "20230101000000") =
      "NjAwOTg4dGVzdF9wYXNza2V5MjAyMzAxMDEwMDAwMDA=" := by
  refine ⟨?_, ?_, rfl, rfl⟩
  · intro c d p pk hpk hne
    have hb : (pk == "") = false := by simp [hne]
    have hmk : stkPushRequest c d p = Except.ok ("/mpesa/stkpush/v1/processrequest",
        [("BusinessShortCode", some (Json.str c.shortCode)),
         ("Password", some (Json.str (base64str (c.shortCode ++ pk ++ _getTimestamp d)))),
         ("Timestamp", some (Json.str (_getTimestamp d))),
         ("TransactionType", some (jsOrDefault p.TransactionType
           (Json.str "CustomerPayBillOnline"))),
         ("Amount", p.Amount),
         ("PartyA", p.PhoneNumber),
         ("PartyB", some (Json.str c.shortCode)),
         ("PhoneNumber", p.PhoneNumber),
         ("CallBackURL", p.CallBackURL),
         ("AccountReference", p.AccountReference),
         ("TransactionDesc", p.TransactionDesc)]) := by
      simp [stkPushRequest, hpk, jsTruthyOptStr, hb]
    exact ⟨_, hmk, rfl, rfl⟩
  · intro c d p pk hpk hne
    have hb : (pk == "") = false := by simp [hne]
    have hmk : stkQueryRequest c d p = Except.ok ("/mpesa/stkpushquery/v1/query",
        [("BusinessShortCode", some (Json.str c.shortCode)),
         ("Password", some (Json.str (base64str (c.shortCode ++ pk ++ _getTimestamp d)))),
         ("Timestamp", some (Json.str (_getTimestamp d))),
         ("CheckoutRequestID", p.CheckoutRequestID)]) := by
      simp [stkQueryRequest, hpk, jsTruthyOptStr, hb]
    exact ⟨_, hmk, rfl, rfl⟩

/-- C6 witness: the demo client and clock yield the spec's concrete
password in the outgoing body. -/
theorem C6_password_derivation_witness :
    ∃ body, stkPushRequest cDemo dDemo ⟨none, none, none, none, none, none⟩ =
        Except.ok ("/mpesa/stkpush/v1/processrequest", body) ∧
      body.lookup "Password" =
        some (some (Json.str (base64str ("600988" ++ "test_passkey" ++
          _getTimestamp dDemo)))) ∧
      body.lookup "Timestamp" = some (some (Json.str (_getTimestamp dDemo))) := by
  exact C6_password_derivation.1 cDemo dDemo ⟨none, none, none, none, none, none⟩
    "test_passkey" rfl (by decide)

/-- C7: on a non-`null` body the code probe order is top-level
`errorCode`, then `fault.code`, then `ResultCode`, and the message probe
order is `errorMessage`, then `fault.faultstring`, then `ResultDesc`,
then the raw JSON dump, each combined with JavaScript `||` (first truthy
value wins); every code outside the switch's case labels produces the
generic fallback containing the HTTP status and the extracted message. -/
theorem C7_extraction_priority :
    (∀ data : Json, data ≠ Json.null →
      ∃ a b r, getProp data "errorCode" = Except.ok a ∧ faultProp data "code" = Except.ok b ∧
        getProp data "ResultCode" = Except.ok r ∧
        extractCode data = Except.ok (jsOr a (jsOr b r))) ∧
    (∀ data : Json, data ≠ Json.null →
      ∃ a b r, getProp data "errorMessage" = Except.ok a ∧
        faultProp data "faultstring" = Except.ok b ∧ getProp data "ResultDesc" = Except.ok r ∧
        extractMsg data = Except.ok (jsOr a (jsOr b (jsOr r
          (some (Json.str (jsonStringify data))))))) ∧
    (∀ a b, jsTruthy a = true → jsOr a b = a) ∧
    (∀ a b, jsTruthy a = false → jsOr a b = b) ∧
    (∀ (st : Nat) (cs : String) (mv : Option Json), cs ∉ knownCodes →
      switchMessage st cs mv = Except.ok (msgGenericFallback st (jsToString mv))) := by
  refine ⟨?_, ?_, ?_, ?_, ?_⟩
  · intro data h
    obtain ⟨a, ha⟩ := getProp_ok data h "errorCode"
    obtain ⟨b, hb⟩ := faultProp_ok data h "code"
    obtain ⟨r, hr⟩ := getProp_ok data h "ResultCode"
    exact ⟨a, b, r, ha, hb, hr, by simp [extractCode, ha, hb, hr]⟩
  · intro data h
    obtain ⟨a, ha⟩ := getProp_ok data h "errorMessage"
    obtain ⟨b, hb⟩ := faultProp_ok data h "faultstring"
    obtain ⟨r, hr⟩ := getProp_ok data h "ResultDesc"
    exact ⟨a, b, r, ha, hb, hr, by simp [extractMsg, ha, hb, hr]⟩
  · intro a b h
    simp [jsOr, h]
  · intro a b h
    simp [jsOr, h]
  · intro st cs mv h
    simp only [knownCodes, List.mem_cons, List.not_mem_nil, or_false, not_or] at h
    obtain ⟨h1, h2, h3, h4, h5, h6, h7, h8, h9, h10, h11, h12, h13, h14, h15, h16, h17, h18,
      h19, h20, h21, h22, h23, h24⟩ := h
    simp [switchMessage, h1, h2, h3, h4, h5, h6, h7, h8, h9, h10, h11, h12, h13, h14, h15,
      h16, h17, h18, h19, h20, h21, h22, h23, h24]

/-- C7 witness: a concrete body exercising the probe equations, and the
unmapped code `"999"` hitting the generic fallback. -/
theorem C7_extraction_priority_witness :
    (∃ a b r, getProp (Json.obj [("ResultCode", Json.str "9"), ("ResultDesc", Json.str "d")])
        "errorCode" = Except.ok a ∧
      faultProp (Json.obj [("ResultCode", Json.str "9"), ("ResultDesc", Json.str "d")])
        "code" = Except.ok b ∧
      getProp (Json.obj [("ResultCode", Json.str "9"), ("ResultDesc", Json.str "d")])
        "ResultCode" = Except.ok r ∧
      extractCode (Json.obj [("ResultCode", Json.str "9"), ("ResultDesc", Json.str "d")]) =
        Except.ok (jsOr a (jsOr b r))) ∧
    switchMessage 418 "999" (some (Json.str "oops")) =
      Except.ok (msgGenericFallback 418 (jsToString (some (Json.str "oops")))) := by
  constructor
  · exact C7_extraction_priority.1 (Json.obj [("ResultCode", Json.str "9"),
      ("ResultDesc", Json.str "d")]) (fun hh => Json.noConfusion hh)
  · exact C7_extraction_priority.2.2.2.2 418 "999" (some (Json.str "oops")) (by decide)

/-- C8: for codes `"500.003.1001"` and `"409"` with a string extracted
message, the sub-case is chosen by substring tests in the source's fixed
order, the first matching phrase winning, and with no phrase matched the
per-code generic fallback carries the extracted message. -/
theorem C8_substring_disambiguation :
    (∀ (st : Nat) (s : String), strIncludes s "already registered" = true →
      switchMessage st "500.003.1001" (some (Json.str s)) =
        Except.ok msgUrlsAlreadyRegistered) ∧
    (∀ (st : Nat) (s : String), strIncludes s "already registered" = false →
      strIncludes s "Duplicate notification info" = true →
      switchMessage st "500.003.1001" (some (Json.str s)) = Except.ok msgDuplicateUrls) ∧
    (∀ (st : Nat) (s : String), strIncludes s "already registered" = false →
      strIncludes s "Duplicate notification info" = false →
      switchMessage st "500.003.1001" (some (Json.str s)) =
        Except.ok (msgInternalServerErrorAt s)) ∧
    (∀ (st : Nat) (s : String), strIncludes s "Biller already Registered" = true →
      switchMessage st "409" (some (Json.str s)) = Except.ok msgBillerAlreadyOptedIn) ∧
    (∀ (st : Nat) (s : String), strIncludes s "Biller already Registered" = false →
      strIncludes s "Invalid consumerkey/shortcode" = true →
      switchMessage st "409" (some (Json.str s)) = Except.ok msgInvalidCredentials) ∧
    (∀ (st : Nat) (s : String), strIncludes s "Biller already Registered" = false →
      strIncludes s "Invalid consumerkey/shortcode" = false →
      strIncludes s "Another entry exist" = true →
      switchMessage st "409" (some (Json.str s)) = Except.ok msgDuplicateInvoice) ∧
    (∀ (st : Nat) (s : String), strIncludes s "Biller already Registered" = false →
      strIncludes s "Invalid consumerkey/shortcode" = false →
      strIncludes s "Another entry exist" = false →
      strIncludes s "Incorrect phone number format" = true →
      switchMessage st "409" (some (Json.str s)) = Except.ok msgInvalidPhoneNumber) ∧
    (∀ (st : Nat) (s : String), strIncludes s "Biller already Registered" = false →
      strIncludes s "Invalid consumerkey/shortcode" = false →
      strIncludes s "Another entry exist" = false →
      strIncludes s "Incorrect phone number format" = false →
      strIncludes s "Incorrect due date format" = true →
      switchMessage st "409" (some (Json.str s)) = Except.ok msgInvalidDateFormat) ∧
    (∀ (st : Nat) (s : String), strIncludes s "Biller already Registered" = false →
      strIncludes s "Invalid consumerkey/shortcode" = false →
      strIncludes s "Another entry exist" = false →
      strIncludes s "Incorrect phone number format" = false →
      strIncludes s "Incorrect due date format" = false →
      strIncludes s "cannot be cancelled" = true →
      switchMessage st "409" (some (Json.str s)) = Except.ok msgInvoiceCannotBeCancelled) ∧
    (∀ (st : Nat) (s : String), strIncludes s "Biller already Registered" = false →
      strIncludes s "Invalid consumerkey/shortcode" = false →
      strIncludes s "Another entry exist" = false →
      strIncludes s "Incorrect phone number format" = false →
      strIncludes s "Incorrect due date format" = false →
      strIncludes s "cannot be cancelled" = false →
      switchMessage st "409" (some (Json.str s)) = Except.ok (msgConflictError s)) := by
  refine ⟨?_, ?_, ?_, ?_, ?_, ?_, ?_, ?_, ?_, ?_⟩
  · intro st s h1
    simp [switchMessage, jsIncludes, h1]
  · intro st s h1 h2
    simp [switchMessage, jsIncludes, h1, h2]
  · intro st s h1 h2
    simp [switchMessage, jsIncludes, jsToString, jsToStringJ, h1, h2]
  · intro st s h1
    simp [switchMessage, jsIncludes, h1]
  · intro st s h1 h2
    simp [switchMessage, jsIncludes, h1, h2]
  · intro st s h1 h2 h3
    simp [switchMessage, jsIncludes, h1, h2, h3]
  · intro st s h1 h2 h3 h4
    simp [switchMessage, jsIncludes, h1, h2, h3, h4]
  · intro st s h1 h2 h3 h4 h5
    simp [switchMessage, jsIncludes, h1, h2, h3, h4, h5]
  · intro st s h1 h2 h3 h4 h5 h6
    simp [switchMessage, jsIncludes, h1, h2, h3, h4, h5, h6]
  · intro st s h1 h2 h3 h4 h5 h6
    simp [switchMessage, jsIncludes, jsToString, jsToStringJ, h1, h2, h3, h4, h5, h6]

/-- C8 witness: first-phrase match, second-phrase match and no-match
fallback on concrete messages. -/
theorem C8_substring_disambiguation_witness :
    switchMessage 500 "500.003.1001" (some (Json.str "URLs already registered for shortcode")) =
      Except.ok msgUrlsAlreadyRegistered ∧
    switchMessage 500 "500.003.1001" (some (Json.str "Duplicate notification info found")) =
      Except.ok msgDuplicateUrls ∧
    switchMessage 409 "409" (some (Json.str "some other conflict")) =
      Except.ok (msgConflictError "some other conflict") := by
  refine ⟨?_, ?_, ?_⟩
  · exact C8_substring_disambiguation.1 500 "URLs already registered for shortcode" (by decide)
  · exact C8_substring_disambiguation.2.1 500 "Duplicate notification info found" (by decide)
      (by decide)
  · exact C8_substring_disambiguation.2.2.2.2.2.2.2.2.2 409 "some other conflict" (by decide)
      (by decide) (by decide) (by decide) (by decide) (by decide)

/-- C9: every request-sent-but-unanswered failure normalizes to the one
fixed unreachable message, and both the token endpoint and every target
endpoint propagate exactly that message on such a failure. -/
theorem C9_no_response_fixed :
    (∀ e : AxiosError, e.response = none → e.request = true →
      _handleError e = Except.ok msgNoResponse) ∧
    msgNoResponse = "The request failed because no response was received from the Safaricom server. This could be due to a network issue or the Daraja API being temporarily unavailable. Please check your internet connection and try again." ∧
    (∀ (c : Client) (st : ClientState) (now : Int) (err : AxiosError),
      err.response = none → err.request = true → tokenValid st now = false →
      _getAuthToken c st now (fun _ => Except.error err) =
        (Except.error (Thrown.err msgNoResponse), st, 1)) ∧
    (∀ (c : Client) (st : ClientState) (now : Int) (t : String) (e1 : Int)
        (fetch : String → Except AxiosError TokenResponse) (ep : String) (b : ReqBody)
        (err : AxiosError),
      err.response = none → err.request = true →
      st.token = some t → t ≠ "" → st.tokenExpiresAt = some e1 → 0 ≤ now → now < e1 →
      _makeRequest c st now fetch ep b (fun _ _ _ => Except.error err) =
        (Except.error (Thrown.err msgNoResponse), st, 0, 1)) := by
  refine ⟨?_, rfl, ?_, ?_⟩
  · intro e h1 h2
    simp [_handleError, h1, h2]
  · intro c st now err h1 h2 hv
    have hh : _handleError err = Except.ok msgNoResponse := by simp [_handleError, h1, h2]
    unfold _getAuthToken
    rw [if_neg (by simp [hv])]
    simp [hh]
  · intro c st now t e1 fetch ep b err h1 h2 ht htne he hnow hlt
    have hh : _handleError err = Except.ok msgNoResponse := by simp [_handleError, h1, h2]
    have hb : (t == "") = false := by simp [htne]
    have hz : (e1 == 0) = false := by simp; omega
    have hv : tokenValid st now = true := by
      simp [tokenValid, ht, he, jsTruthyOptStr, jsTruthyOptInt, hb, hz]
      omega
    have e2 : _getAuthToken c st now fetch = (Except.ok t, st, 0) := by
      simp [_getAuthToken, hv, ht]
    simp only [_makeRequest, e2]
    simp [hh]

/-- C9 witness: the fixed unreachable message at both call sites on a
concrete no-response failure. -/
theorem C9_no_response_fixed_witness :
    _handleError noRespErr = Except.ok msgNoResponse ∧
    _getAuthToken cDemo { token := none, tokenExpiresAt := none } 0
        (fun _ => Except.error noRespErr) =
      (Except.error (Thrown.err msgNoResponse), { token := none, tokenExpiresAt := none }, 1) ∧
    _makeRequest cDemo { token := some "tok", tokenExpiresAt := some 5000 } 100 fetchDemo
        "/mpesa/stkpush/v1/processrequest" [] (fun _ _ _ => Except.error noRespErr) =
      (Except.error (Thrown.err msgNoResponse),
       { token := some "tok", tokenExpiresAt := some 5000 }, 0, 1) := by
  refine ⟨?_, ?_, ?_⟩
  · exact C9_no_response_fixed.1 noRespErr rfl rfl
  · exact C9_no_response_fixed.2.2.1 cDemo _ 0 noRespErr rfl rfl (by decide)
  · exact C9_no_response_fixed.2.2.2 cDemo _ 100 "tok" 5000 fetchDemo
      "/mpesa/stkpush/v1/processrequest" [] noRespErr rfl rfl rfl (by decide) rfl (by decide)
      (by decide)

/-- C10: every extracted code stringifying to `"2001"` takes the first
matching case of the switch and yields the Invalid PIN message, which
differs from the message of the two later, shadowed `"2001"` cases. -/
theorem C10_first_2001_case_wins :
    (∀ (st : Nat) (mv : Option Json), switchMessage st "2001" mv = Except.ok msgInvalidPin) ∧
    msgInvalidPin ≠ msgInvalidInitiatorInfo ∧
    (∀ (e : AxiosError) (r : AxiosResponse) (cv mv : Option Json),
      e.response = some r → extractCode r.data = Except.ok cv → jsToString cv = "2001" →
      extractMsg r.data = Except.ok mv → _handleError e = Except.ok msgInvalidPin) := by
  refine ⟨?_, by decide, ?_⟩
  · intro st mv
    rfl
  · intro e r cv mv he hcv hstr hmv
    simp only [_handleError, he]
    rw [hcv]
    rw [hmv]
    show switchMessage r.status (jsToString cv) mv = Except.ok msgInvalidPin
    rw [hstr]
    rfl

/-- A server-responded failure whose body carries code `"2001"`. -/
def err2001 : AxiosError :=
  { response := some { status := 400, data := Json.obj [("errorCode", Json.str "2001")] },
    request := true, message := "m" }

/-- C10 witness: the concrete code-2001 failure produces the Invalid PIN
message. -/
theorem C10_first_2001_case_wins_witness :
    _handleError err2001 = Except.ok msgInvalidPin := by
  exact C10_first_2001_case_wins.2.2 err2001
    { status := 400, data := Json.obj [("errorCode", Json.str "2001")] }
    (some (Json.str "2001")) (some (Json.str "\x7b\"errorCode\":\"2001\"\x7d"))
    rfl rfl rfl rfl
